import Mathlib

/-!
# Policy-based-management client (`pbm/client.go`)

A shallow embedding of the `pbm` client and the properties of its
compatibility partitioning, name resolution, bootstrap and error propagation.

Conventions of the embedding.

* A Go slice is a `List`; the nil slice is `[]`, and `append(s, x)` is `s ++ [x]`.
* A Go pointer that may be nil (`*types.PbmServerObjectRef`, `*Client`) is an `Option`.
* A Go `(value, error)` result is a pair `(value, Option Error)`: both components are
  kept, so the value returned next to a non-nil error is visible.
* `context.Context` only reaches the transport, which is a parameter here, so it is not
  represented.
* The transport collaborator is a `soap.RoundTripper σ`: one handler per operation over a
  server state `σ`.  Every call through `methods` appends the request to `Wire.sent`, so
  the requests an operation issues can be counted and inspected.
* The field `Type` of `ManagedObjectReference` is written `Type_`.
-/

set_option autoImplicit false
set_option linter.dupNamespace false

namespace vim

/-- Modelled from the spec: `vim25/types.ManagedObjectReference` is absent; a reference to a server-side object is a (type, id) pair of strings. -/
structure ManagedObjectReference where
  Type_ : String
  Value : String
  deriving DecidableEq, Repr

/-- Modelled from the spec: `vim25/types.LocalizedMethodFault` is absent; the diagnostics carried
by a per-item error field are data, represented by their message. -/
structure LocalizedMethodFault where
  LocalizedMessage : String
  deriving DecidableEq, Repr

end vim

namespace types

/-- Modelled from the spec: `pbm/types.PbmServiceInstanceContent` is absent; the bundle of stable
references to the server-side managers (profile manager, placement solver). -/
structure PbmServiceInstanceContent where
  ProfileManager : vim.ManagedObjectReference
  PlacementSolver : vim.ManagedObjectReference
  deriving DecidableEq, Repr

/-- Modelled from the spec: `pbm/types.PbmProfileId` is absent; an opaque identifier compared by
its string value. -/
structure PbmProfileId where
  UniqueId : String
  deriving DecidableEq, Repr

/-- Modelled from the spec: `pbm/types.PbmProfileResourceType` is absent; a query filter. -/
structure PbmProfileResourceType where
  ResourceType : String
  deriving DecidableEq, Repr

/-- Modelled from the spec: the constant `PbmProfileResourceTypeEnumSTORAGE` is absent; the
storage resource type. -/
def PbmProfileResourceTypeEnumSTORAGE : String := "STORAGE"

/-- Modelled from the spec: the constant `PbmProfileCategoryEnumREQUIREMENT` is absent; the
requirement category. -/
def PbmProfileCategoryEnumREQUIREMENT : String := "REQUIREMENT"

/-- Modelled from the spec: `pbm/types.PbmProfile` is absent; a capability profile with its
identifier and display name. -/
structure PbmProfile where
  ProfileId : PbmProfileId
  Name : String
  Description : String
  deriving DecidableEq, Repr

/-- Modelled from the spec: the interface `pbm/types.BasePbmProfile` is absent; any profile kind
gives access to its base profile through `GetPbmProfile`. -/
structure BasePbmProfile where
  GetPbmProfile : PbmProfile
  deriving DecidableEq, Repr

/-- Modelled from the spec: `pbm/types.PbmPlacementHub` is absent; a (type, id) pair identifying a
candidate placement target. -/
structure PbmPlacementHub where
  HubType : String
  HubId : String
  deriving DecidableEq, Repr

/-- Modelled from the spec: `pbm/types.PbmServerObjectRef` is absent; identifies the subject
entity whose placement is evaluated. -/
structure PbmServerObjectRef where
  ObjectType : String
  Key : String
  ServerUuid : String
  deriving DecidableEq, Repr

/-- Modelled from the spec: the interface `pbm/types.BasePbmPlacementRequirement` is absent; a
requirement is polymorphic over its kind.  The client only builds the capability-profile
variant, which carries a profile identifier; `other` stands for the remaining kinds of the
protocol. -/
inductive BasePbmPlacementRequirement where
  | PbmPlacementCapabilityProfileRequirement (ProfileId : PbmProfileId)
  | other (kind : String)
  deriving DecidableEq, Repr

/-- Modelled from the spec: `pbm/types.PbmPlacementCompatibilityResult` is absent; one entry per
evaluated hub, carrying the hub and an error indicator (empty = compatible). -/
structure PbmPlacementCompatibilityResult where
  Hub : PbmPlacementHub
  Warning : List vim.LocalizedMethodFault
  Error : List vim.LocalizedMethodFault
  deriving DecidableEq, Repr

/-- Modelled from the spec: `pbm/types.PbmCapabilityProfileCreateSpec` is absent; a profile
definition to create. -/
structure PbmCapabilityProfileCreateSpec where
  Name : String
  Description : String
  deriving DecidableEq, Repr

/-- Modelled from the spec: `pbm/types.PbmCapabilityProfileUpdateSpec` is absent; a profile
definition replacing an existing one. -/
structure PbmCapabilityProfileUpdateSpec where
  Name : String
  Description : String
  deriving DecidableEq, Repr

/-- Modelled from the spec: `pbm/types.PbmProfileOperationOutcome` is absent; the outcome of a
delete for one identifier, with a per-id failure when there is one. -/
structure PbmProfileOperationOutcome where
  ProfileId : PbmProfileId
  Fault : Option vim.LocalizedMethodFault
  deriving DecidableEq, Repr

/-- Modelled from the spec: `pbm/types.PbmQueryProfileResult` is absent; the profiles associated
with one server entity. -/
structure PbmQueryProfileResult where
  Object : PbmServerObjectRef
  ProfileId : List PbmProfileId
  deriving DecidableEq, Repr

/-- Modelled from the spec: request payload of the bootstrap operation (type absent). -/
structure PbmRetrieveServiceContent where
  This : vim.ManagedObjectReference
  deriving DecidableEq, Repr

/-- Modelled from the spec: response payload of the bootstrap operation (type absent). -/
structure PbmRetrieveServiceContentResponse where
  Returnval : PbmServiceInstanceContent
  deriving DecidableEq, Repr

/-- Modelled from the spec: request payload of the profile query (type absent). -/
structure PbmQueryProfile where
  This : vim.ManagedObjectReference
  ResourceType : PbmProfileResourceType
  ProfileCategory : String
  deriving DecidableEq, Repr

/-- Modelled from the spec: response payload of the profile query (type absent). -/
structure PbmQueryProfileResponse where
  Returnval : List PbmProfileId
  deriving DecidableEq, Repr

/-- Modelled from the spec: request payload of the content retrieval (type absent). -/
structure PbmRetrieveContent where
  This : vim.ManagedObjectReference
  ProfileIds : List PbmProfileId
  deriving DecidableEq, Repr

/-- Modelled from the spec: response payload of the content retrieval (type absent). -/
structure PbmRetrieveContentResponse where
  Returnval : List BasePbmProfile
  deriving DecidableEq, Repr

/-- Modelled from the spec: request payload of the compatibility check (type absent): the hub
list, the optional subject reference and the requirement list. -/
structure PbmCheckRequirements where
  This : vim.ManagedObjectReference
  HubsToSearch : List PbmPlacementHub
  PlacementSubjectRef : Option PbmServerObjectRef
  PlacementSubjectRequirement : List BasePbmPlacementRequirement
  deriving DecidableEq, Repr

/-- Modelled from the spec: response payload of the compatibility check (type absent). -/
structure PbmCheckRequirementsResponse where
  Returnval : List PbmPlacementCompatibilityResult
  deriving DecidableEq, Repr

/-- Modelled from the spec: request payload of profile creation (type absent). -/
structure PbmCreate where
  This : vim.ManagedObjectReference
  CreateSpec : PbmCapabilityProfileCreateSpec
  deriving DecidableEq, Repr

/-- Modelled from the spec: response payload of profile creation (type absent). -/
structure PbmCreateResponse where
  Returnval : PbmProfileId
  deriving DecidableEq, Repr

/-- Modelled from the spec: request payload of a profile update (type absent). -/
structure PbmUpdate where
  This : vim.ManagedObjectReference
  ProfileId : PbmProfileId
  UpdateSpec : PbmCapabilityProfileUpdateSpec
  deriving DecidableEq, Repr

/-- Modelled from the spec: response payload of a profile update (type absent); it carries no
value. -/
structure PbmUpdateResponse where
  deriving DecidableEq, Repr

/-- Modelled from the spec: request payload of a batch delete (type absent). -/
structure PbmDelete where
  This : vim.ManagedObjectReference
  ProfileId : List PbmProfileId
  deriving DecidableEq, Repr

/-- Modelled from the spec: response payload of a batch delete (type absent). -/
structure PbmDeleteResponse where
  Returnval : List PbmProfileOperationOutcome
  deriving DecidableEq, Repr

/-- Modelled from the spec: request payload of the single-profile association lookup (type
absent). -/
structure PbmQueryAssociatedEntity where
  This : vim.ManagedObjectReference
  Profile : PbmProfileId
  EntityType : String
  deriving DecidableEq, Repr

/-- Modelled from the spec: response payload of the single-profile association lookup (type
absent). -/
structure PbmQueryAssociatedEntityResponse where
  Returnval : List PbmServerObjectRef
  deriving DecidableEq, Repr

/-- Modelled from the spec: request payload of the batch association lookup (type absent). -/
structure PbmQueryAssociatedEntities where
  This : vim.ManagedObjectReference
  Profiles : List PbmProfileId
  deriving DecidableEq, Repr

/-- Modelled from the spec: response payload of the batch association lookup (type absent). -/
structure PbmQueryAssociatedEntitiesResponse where
  Returnval : List PbmQueryProfileResult
  deriving DecidableEq, Repr

end types

namespace soap

/-- Modelled from the spec: the error a failed round trip reports (timeout, cancellation,
transport fault).  Its content belongs to the transport collaborator. -/
structure TransportError where
  reason : String
  deriving DecidableEq, Repr

/-- Modelled from the spec: the transport collaborator (`vim25/soap.Client`, absent).  It performs
one request/response exchange per call; the server side is a state `σ` that each exchange may
change, and an exchange ends in a response payload or in an error. -/
structure RoundTripper (σ : Type) where
  PbmRetrieveServiceContent :
    types.PbmRetrieveServiceContent → σ →
      Except TransportError types.PbmRetrieveServiceContentResponse × σ
  PbmQueryProfile :
    types.PbmQueryProfile → σ → Except TransportError types.PbmQueryProfileResponse × σ
  PbmRetrieveContent :
    types.PbmRetrieveContent → σ → Except TransportError types.PbmRetrieveContentResponse × σ
  PbmCheckRequirements :
    types.PbmCheckRequirements → σ →
      Except TransportError types.PbmCheckRequirementsResponse × σ
  PbmCreate : types.PbmCreate → σ → Except TransportError types.PbmCreateResponse × σ
  PbmUpdate : types.PbmUpdate → σ → Except TransportError types.PbmUpdateResponse × σ
  PbmDelete : types.PbmDelete → σ → Except TransportError types.PbmDeleteResponse × σ
  PbmQueryAssociatedEntity :
    types.PbmQueryAssociatedEntity → σ →
      Except TransportError types.PbmQueryAssociatedEntityResponse × σ
  PbmQueryAssociatedEntities :
    types.PbmQueryAssociatedEntities → σ →
      Except TransportError types.PbmQueryAssociatedEntitiesResponse × σ

end soap

/-- A Go `error` value as this package sees it: either the error a round trip returned, passed on
as it is, or an error the package builds itself with `fmt.Errorf`, kept as the format string and
its arguments. -/
inductive Error where
  | transport (e : soap.TransportError)
  | errorf (format : String) (args : List String)
  deriving DecidableEq, Repr

namespace methods

/-- The requests that can be put on the wire, one constructor per operation. -/
inductive Request where
  | PbmRetrieveServiceContent (req : types.PbmRetrieveServiceContent)
  | PbmQueryProfile (req : types.PbmQueryProfile)
  | PbmRetrieveContent (req : types.PbmRetrieveContent)
  | PbmCheckRequirements (req : types.PbmCheckRequirements)
  | PbmCreate (req : types.PbmCreate)
  | PbmUpdate (req : types.PbmUpdate)
  | PbmDelete (req : types.PbmDelete)
  | PbmQueryAssociatedEntity (req : types.PbmQueryAssociatedEntity)
  | PbmQueryAssociatedEntities (req : types.PbmQueryAssociatedEntities)
  deriving DecidableEq, Repr

/-- What a client and its transport share: the state of the server side and the requests sent so
far, oldest first. -/
structure Wire (σ : Type) where
  server : σ
  sent : List Request

/-- Modelled from the spec: the `pbm/methods` stubs are absent; each is exactly one invocation of
the transport with the request payload, giving the response payload or the transport's error.
This is the shared body of the stubs: record the request, run the exchange. -/
def invoke {σ Req Res : Type} (handler : Req → σ → Except soap.TransportError Res × σ)
    (tag : Req → Request) (req : Req) (w : Wire σ) : Except Error Res × Wire σ :=
  let out := handler req w.server
  (match out.1 with
    | Except.ok res => Except.ok res
    | Except.error e => Except.error (Error.transport e),
   Wire.mk out.2 (w.sent ++ [tag req]))

/-- Modelled from the spec: stub of the absent `pbm/methods` package. -/
def PbmRetrieveServiceContent {σ : Type} (r : soap.RoundTripper σ)
    (req : types.PbmRetrieveServiceContent) (w : Wire σ) :
    Except Error types.PbmRetrieveServiceContentResponse × Wire σ :=
  invoke r.PbmRetrieveServiceContent Request.PbmRetrieveServiceContent req w

/-- Modelled from the spec: stub of the absent `pbm/methods` package. -/
def PbmQueryProfile {σ : Type} (r : soap.RoundTripper σ) (req : types.PbmQueryProfile)
    (w : Wire σ) : Except Error types.PbmQueryProfileResponse × Wire σ :=
  invoke r.PbmQueryProfile Request.PbmQueryProfile req w

/-- Modelled from the spec: stub of the absent `pbm/methods` package. -/
def PbmRetrieveContent {σ : Type} (r : soap.RoundTripper σ) (req : types.PbmRetrieveContent)
    (w : Wire σ) : Except Error types.PbmRetrieveContentResponse × Wire σ :=
  invoke r.PbmRetrieveContent Request.PbmRetrieveContent req w

/-- Modelled from the spec: stub of the absent `pbm/methods` package. -/
def PbmCheckRequirements {σ : Type} (r : soap.RoundTripper σ) (req : types.PbmCheckRequirements)
    (w : Wire σ) : Except Error types.PbmCheckRequirementsResponse × Wire σ :=
  invoke r.PbmCheckRequirements Request.PbmCheckRequirements req w

/-- Modelled from the spec: stub of the absent `pbm/methods` package. -/
def PbmCreate {σ : Type} (r : soap.RoundTripper σ) (req : types.PbmCreate) (w : Wire σ) :
    Except Error types.PbmCreateResponse × Wire σ :=
  invoke r.PbmCreate Request.PbmCreate req w

/-- Modelled from the spec: stub of the absent `pbm/methods` package. -/
def PbmUpdate {σ : Type} (r : soap.RoundTripper σ) (req : types.PbmUpdate) (w : Wire σ) :
    Except Error types.PbmUpdateResponse × Wire σ :=
  invoke r.PbmUpdate Request.PbmUpdate req w

/-- Modelled from the spec: stub of the absent `pbm/methods` package. -/
def PbmDelete {σ : Type} (r : soap.RoundTripper σ) (req : types.PbmDelete) (w : Wire σ) :
    Except Error types.PbmDeleteResponse × Wire σ :=
  invoke r.PbmDelete Request.PbmDelete req w

/-- Modelled from the spec: stub of the absent `pbm/methods` package. -/
def PbmQueryAssociatedEntity {σ : Type} (r : soap.RoundTripper σ)
    (req : types.PbmQueryAssociatedEntity) (w : Wire σ) :
    Except Error types.PbmQueryAssociatedEntityResponse × Wire σ :=
  invoke r.PbmQueryAssociatedEntity Request.PbmQueryAssociatedEntity req w

/-- Modelled from the spec: stub of the absent `pbm/methods` package. -/
def PbmQueryAssociatedEntities {σ : Type} (r : soap.RoundTripper σ)
    (req : types.PbmQueryAssociatedEntities) (w : Wire σ) :
    Except Error types.PbmQueryAssociatedEntitiesResponse × Wire σ :=
  invoke r.PbmQueryAssociatedEntities Request.PbmQueryAssociatedEntities req w

end methods

namespace vim25

/-- Modelled from the spec: `vim25.Client` is absent; the established generic session, from which
a service client for an endpoint path and a namespace is derived (no request is made for
that). -/
structure Client (σ : Type) where
  NewServiceClient : String → String → soap.RoundTripper σ

end vim25

namespace pbm

open methods (Wire)

/-- The client (`type Client struct`): the service client it talks through and the service
content obtained at construction. -/
structure Client (σ : Type) where
  Client : soap.RoundTripper σ
  ServiceContent : types.PbmServiceInstanceContent

/-- Embedding of `NewClient`. -/
def NewClient {σ : Type} (c : vim25.Client σ) (w : Wire σ) :
    (Option (Client σ) × Option Error) × Wire σ :=
  let sc := c.NewServiceClient "/pbm/sdk" "urn:pbm"
  let req : types.PbmRetrieveServiceContent :=
    { This := { Type_ := "PbmServiceInstance", Value := "ServiceInstance" } }
  match methods.PbmRetrieveServiceContent sc req w with
  | (Except.error err, w1) => ((none, some err), w1)
  | (Except.ok res, w1) => ((some { Client := sc, ServiceContent := res.Returnval }, none), w1)

/-- Embedding of `Client.QueryProfile`. -/
def QueryProfile {σ : Type} (c : Client σ) (rtype : types.PbmProfileResourceType)
    (category : String) (w : Wire σ) : (List types.PbmProfileId × Option Error) × Wire σ :=
  let req : types.PbmQueryProfile :=
    { This := c.ServiceContent.ProfileManager, ResourceType := rtype,
      ProfileCategory := category }
  match methods.PbmQueryProfile c.Client req w with
  | (Except.error err, w1) => (([], some err), w1)
  | (Except.ok res, w1) => ((res.Returnval, none), w1)

/-- Embedding of `Client.RetrieveContent`. -/
def RetrieveContent {σ : Type} (c : Client σ) (ids : List types.PbmProfileId) (w : Wire σ) :
    (List types.BasePbmProfile × Option Error) × Wire σ :=
  let req : types.PbmRetrieveContent :=
    { This := c.ServiceContent.ProfileManager, ProfileIds := ids }
  match methods.PbmRetrieveContent c.Client req w with
  | (Except.error err, w1) => (([], some err), w1)
  | (Except.ok res, w1) => ((res.Returnval, none), w1)

/-- Embedding of `Client.CheckRequirements`. -/
def CheckRequirements {σ : Type} (c : Client σ) (hubs : List types.PbmPlacementHub)
    (ref : Option types.PbmServerObjectRef) (preq : List types.BasePbmPlacementRequirement)
    (w : Wire σ) : (List types.PbmPlacementCompatibilityResult × Option Error) × Wire σ :=
  let req : types.PbmCheckRequirements :=
    { This := c.ServiceContent.PlacementSolver, HubsToSearch := hubs,
      PlacementSubjectRef := ref, PlacementSubjectRequirement := preq }
  match methods.PbmCheckRequirements c.Client req w with
  | (Except.error err, w1) => (([], some err), w1)
  | (Except.ok res, w1) => ((res.Returnval, none), w1)

/-- The struct literal `types.PbmPlacementHub{HubType: ds.Type, HubId: ds.Value}` of both
partitioning operations. -/
def hubOf (ds : vim.ManagedObjectReference) : types.PbmPlacementHub :=
  { HubType := ds.Type_, HubId := ds.Value }

/-- The struct literal `vim.ManagedObjectReference{Type: res.Hub.HubType, Value: res.Hub.HubId}`
of both partitioning operations. -/
def refOf (res : types.PbmPlacementCompatibilityResult) : vim.ManagedObjectReference :=
  { Type_ := res.Hub.HubType, Value := res.Hub.HubId }

/-- The first loop of both partitioning operations: `for _, ds := range datastores` appending
the hub built from `ds`. -/
def hubsOf (datastores : List vim.ManagedObjectReference) : List types.PbmPlacementHub :=
  datastores.foldl (fun hubs ds => hubs ++ [hubOf ds]) []

/-- The second loop of both partitioning operations: `for _, id := range ids` appending a
capability-profile requirement built from `id`. -/
def requirementsOf (ids : List types.PbmProfileId) : List types.BasePbmPlacementRequirement :=
  ids.foldl
    (fun req id =>
      req ++ [types.BasePbmPlacementRequirement.PbmPlacementCapabilityProfileRequirement id]) []

/-- Embedding of `Client.GetCompatibleDatastores`. -/
def GetCompatibleDatastores {σ : Type} (c : Client σ)
    (datastores : List vim.ManagedObjectReference) (ref : Option types.PbmServerObjectRef)
    (ids : List types.PbmProfileId) (w : Wire σ) :
    (List vim.ManagedObjectReference × Option Error) × Wire σ :=
  let hubs := hubsOf datastores
  let req := requirementsOf ids
  match CheckRequirements c hubs ref req w with
  | ((_, some err), w1) => (([], some err), w1)
  | ((compatibilityResult, none), w1) =>
    ((compatibilityResult.foldl
        (fun compatibleDatastores res =>
          if res.Error.length = 0 then compatibleDatastores ++ [refOf res]
          else compatibleDatastores) [],
      none), w1)

/-- Embedding of `Client.GetNonCompatibleDatastores`.  The argument `ref` is not used: the check
is issued with `nil`. -/
def GetNonCompatibleDatastores {σ : Type} (c : Client σ)
    (datastores : List vim.ManagedObjectReference) (_ref : Option types.PbmServerObjectRef)
    (ids : List types.PbmProfileId) (w : Wire σ) :
    (List vim.ManagedObjectReference × Option Error) × Wire σ :=
  let hubs := hubsOf datastores
  let req := requirementsOf ids
  match CheckRequirements c hubs none req w with
  | ((_, some err), w1) => (([], some err), w1)
  | ((compatibilityResult, none), w1) =>
    ((compatibilityResult.foldl
        (fun nonCompatibleDatastores res =>
          if res.Error.length > 0 then nonCompatibleDatastores ++ [refOf res]
          else nonCompatibleDatastores) [],
      none), w1)

/-- Embedding of `Client.CreatePbmProfile`.  On failure the declared, never assigned
`profileID` is returned: the zero value. -/
def CreatePbmProfile {σ : Type} (c : Client σ)
    (capabilityProfileCreateSpec : types.PbmCapabilityProfileCreateSpec) (w : Wire σ) :
    (types.PbmProfileId × Option Error) × Wire σ :=
  let req : types.PbmCreate :=
    { This := c.ServiceContent.ProfileManager, CreateSpec := capabilityProfileCreateSpec }
  match methods.PbmCreate c.Client req w with
  | (Except.error err, w1) =>
    let profileID : types.PbmProfileId := { UniqueId := "" }
    ((profileID, some err), w1)
  | (Except.ok res, w1) => ((res.Returnval, none), w1)

/-- Embedding of `Client.UpdatePbmProfile`. -/
def UpdatePbmProfile {σ : Type} (c : Client σ) (id : types.PbmProfileId)
    (capabilityProfileUpdateSpec : types.PbmCapabilityProfileUpdateSpec) (w : Wire σ) :
    Option Error × Wire σ :=
  let req : types.PbmUpdate :=
    { This := c.ServiceContent.ProfileManager, ProfileId := id,
      UpdateSpec := capabilityProfileUpdateSpec }
  match methods.PbmUpdate c.Client req w with
  | (Except.error err, w1) => (some err, w1)
  | (Except.ok _, w1) => (none, w1)

/-- Embedding of `Client.DeletePbmProfile`. -/
def DeletePbmProfile {σ : Type} (c : Client σ) (ids : List types.PbmProfileId) (w : Wire σ) :
    (List types.PbmProfileOperationOutcome × Option Error) × Wire σ :=
  let req : types.PbmDelete := { This := c.ServiceContent.ProfileManager, ProfileId := ids }
  match methods.PbmDelete c.Client req w with
  | (Except.error err, w1) => (([], some err), w1)
  | (Except.ok res, w1) => ((res.Returnval, none), w1)

/-- Embedding of `Client.QueryAssociatedEntity`. -/
def QueryAssociatedEntity {σ : Type} (c : Client σ) (id : types.PbmProfileId)
    (entityType : String) (w : Wire σ) :
    (List types.PbmServerObjectRef × Option Error) × Wire σ :=
  let req : types.PbmQueryAssociatedEntity :=
    { This := c.ServiceContent.ProfileManager, Profile := id, EntityType := entityType }
  match methods.PbmQueryAssociatedEntity c.Client req w with
  | (Except.error err, w1) => (([], some err), w1)
  | (Except.ok res, w1) => ((res.Returnval, none), w1)

/-- Embedding of `Client.QueryAssociatedEntities`. -/
def QueryAssociatedEntities {σ : Type} (c : Client σ) (ids : List types.PbmProfileId)
    (w : Wire σ) : (List types.PbmQueryProfileResult × Option Error) × Wire σ :=
  let req : types.PbmQueryAssociatedEntities :=
    { This := c.ServiceContent.ProfileManager, Profiles := ids }
  match methods.PbmQueryAssociatedEntities c.Client req w with
  | (Except.error err, w1) => (([], some err), w1)
  | (Except.ok res, w1) => ((res.Returnval, none), w1)

/-- The loop that ends `GetPbmProfileIDByName`: `for i := range profiles`, returning from inside
the loop at the first profile whose `Name == profileName`, and the `fmt.Errorf` after it. -/
def scanProfiles (profileName : String) :
    List types.BasePbmProfile → String × Option Error
  | [] => ("", some (Error.errorf "No PBM profile found with name: %q" [profileName]))
  | p :: rest =>
    let profile := p.GetPbmProfile
    if profile.Name = profileName then (profile.ProfileId.UniqueId, none)
    else scanProfiles profileName rest

/-- Embedding of `Client.GetPbmProfileIDByName`. -/
def GetPbmProfileIDByName {σ : Type} (c : Client σ) (profileName : String) (w : Wire σ) :
    (String × Option Error) × Wire σ :=
  let resourceType : types.PbmProfileResourceType :=
    { ResourceType := types.PbmProfileResourceTypeEnumSTORAGE }
  let category := types.PbmProfileCategoryEnumREQUIREMENT
  match QueryProfile c resourceType category w with
  | ((_, some err), w1) => (("", some err), w1)
  | ((ids, none), w1) =>
    match RetrieveContent c ids w1 with
    | ((_, some err), w2) => (("", some err), w2)
    | ((profiles, none), w2) => (scanProfiles profileName profiles, w2)

end pbm

/-! ## Server doubles

Concrete transports on which the operations are evaluated.  The server state is the number of
exchanges served so far. -/

namespace double

/-- The error a double reports for an operation it is told to fail. -/
def fault : soap.TransportError := { reason := "connection refused" }

/-- A diagnostic a double puts in the error field of a result. -/
def mismatch : vim.LocalizedMethodFault := { LocalizedMessage := "capability mismatch" }

/-- The operations of the protocol, to tell a double which of them fail. -/
inductive Op where
  | RetrieveServiceContent | QueryProfile | RetrieveContent | CheckRequirements | Create
  | Update | Delete | QueryAssociatedEntity | QueryAssociatedEntities
  deriving DecidableEq, Repr

/-- A scripted server: the content it hands out, the profiles it holds in order, its verdicts on a
compatibility check, and the operations whose round trip fails. -/
structure Server where
  content : types.PbmServiceInstanceContent
  profiles : List types.BasePbmProfile
  check : types.PbmCheckRequirements → List types.PbmPlacementCompatibilityResult
  down : List Op

/-- One exchange with a scripted server: the scripted failure or the given payload. -/
def Server.answer {Res : Type} (d : Server) (op : Op) (res : Res) (n : Nat) :
    Except soap.TransportError Res × Nat :=
  (if op ∈ d.down then Except.error fault else Except.ok res, n + 1)

/-- The transport of a scripted server. -/
def Server.roundTripper (d : Server) : soap.RoundTripper Nat where
  PbmRetrieveServiceContent := fun _ n =>
    d.answer Op.RetrieveServiceContent { Returnval := d.content } n
  PbmQueryProfile := fun _ n =>
    d.answer Op.QueryProfile { Returnval := d.profiles.map (fun p => p.GetPbmProfile.ProfileId) } n
  PbmRetrieveContent := fun req n =>
    d.answer Op.RetrieveContent
      { Returnval := d.profiles.filter (fun p => p.GetPbmProfile.ProfileId ∈ req.ProfileIds) } n
  PbmCheckRequirements := fun req n => d.answer Op.CheckRequirements { Returnval := d.check req } n
  PbmCreate := fun req n => d.answer Op.Create { Returnval := { UniqueId := req.CreateSpec.Name } } n
  PbmUpdate := fun _ n => d.answer Op.Update {} n
  PbmDelete := fun req n =>
    d.answer Op.Delete
      { Returnval := req.ProfileId.map (fun i => { ProfileId := i, Fault := none }) } n
  PbmQueryAssociatedEntity := fun _ n => d.answer Op.QueryAssociatedEntity { Returnval := [] } n
  PbmQueryAssociatedEntities := fun _ n =>
    d.answer Op.QueryAssociatedEntities { Returnval := [] } n

/-- The generic session in front of a scripted server. -/
def Server.session (d : Server) : vim25.Client Nat :=
  { NewServiceClient := fun _ _ => d.roundTripper }

/-- Content with both manager references set. -/
def content : types.PbmServiceInstanceContent :=
  { ProfileManager := { Type_ := "PbmProfileProfileManager", Value := "ProfileManager" },
    PlacementSolver := { Type_ := "PbmPlacementSolver", Value := "placementSolver" } }

/-- Content whose manager references are empty. -/
def emptyContent : types.PbmServiceInstanceContent :=
  { ProfileManager := { Type_ := "", Value := "" },
    PlacementSolver := { Type_ := "", Value := "" } }

/-- A client of a scripted server, as `NewClient` builds it. -/
def Server.client (d : Server) : pbm.Client Nat :=
  { Client := d.roundTripper, ServiceContent := d.content }

/-- A fresh wire: nothing served, nothing sent. -/
def wire0 : methods.Wire Nat := { server := 0, sent := [] }

def ds1 : vim.ManagedObjectReference := { Type_ := "Datastore", Value := "datastore-1" }
def ds2 : vim.ManagedObjectReference := { Type_ := "Datastore", Value := "datastore-2" }
def ds3 : vim.ManagedObjectReference := { Type_ := "Datastore", Value := "datastore-3" }

def disk : types.PbmServerObjectRef :=
  { ObjectType := "virtualDiskId", Key := "vm-7:2000", ServerUuid := "vc-1" }

def goldId : types.PbmProfileId := { UniqueId := "1" }
def silverId : types.PbmProfileId := { UniqueId := "2" }

/-- Verdicts that echo every hub once, in order, and reject exactly the hubs in odd positions. -/
def rejectOdd (req : types.PbmCheckRequirements) : List types.PbmPlacementCompatibilityResult :=
  req.HubsToSearch.enum.map
    (fun ih => { Hub := ih.2, Warning := [], Error := if ih.1 % 2 = 1 then [mismatch] else [] })

/-- Verdicts that echo every hub once, in order, accepting all of them for a given subject and
rejecting all of them when no subject is given. -/
def subjectOnly (req : types.PbmCheckRequirements) :
    List types.PbmPlacementCompatibilityResult :=
  req.HubsToSearch.map
    (fun h =>
      { Hub := h, Warning := [],
        Error := if req.PlacementSubjectRef.isSome then [] else [mismatch] })

/-- Verdicts that echo every hub once, in order, and accept all of them. -/
def acceptAll (req : types.PbmCheckRequirements) : List types.PbmPlacementCompatibilityResult :=
  req.HubsToSearch.map (fun h => { Hub := h, Warning := [], Error := [] })

/-- The profiles of the concrete scenario, with a profile whose name differs from "silver" only
in letter case placed before it. -/
def profiles : List types.BasePbmProfile :=
  [ { GetPbmProfile := { ProfileId := goldId, Name := "gold", Description := "" } },
    { GetPbmProfile := { ProfileId := { UniqueId := "3" }, Name := "Silver", Description := "" } },
    { GetPbmProfile := { ProfileId := silverId, Name := "silver", Description := "" } } ]

/-- The identifiers of `profiles`, as the profile query of a double lists them. -/
def profileIds : List types.PbmProfileId := [goldId, { UniqueId := "3" }, silverId]

/-- A healthy server with the given verdicts. -/
def server (check : types.PbmCheckRequirements → List types.PbmPlacementCompatibilityResult) :
    Server :=
  { content := content, profiles := profiles, check := check, down := [] }

/-- A healthy server that hands out a content with empty manager references. -/
def hollow : Server :=
  { content := emptyContent, profiles := [], check := acceptAll, down := [] }

/-- A server on which the given operations fail. -/
def broken (down : List Op) : Server :=
  { content := content, profiles := profiles, check := acceptAll, down := down }

/-- The answer of `rejectOdd` for the three datastores. -/
def verdicts3 : List types.PbmPlacementCompatibilityResult :=
  [ { Hub := { HubType := "Datastore", HubId := "datastore-1" }, Warning := [], Error := [] },
    { Hub := { HubType := "Datastore", HubId := "datastore-2" }, Warning := [],
      Error := [mismatch] },
    { Hub := { HubType := "Datastore", HubId := "datastore-3" }, Warning := [], Error := [] } ]

/-- The answer of `rejectOdd` when the first datastore is named twice. -/
def verdictsTwice : List types.PbmPlacementCompatibilityResult :=
  [ { Hub := { HubType := "Datastore", HubId := "datastore-1" }, Warning := [], Error := [] },
    { Hub := { HubType := "Datastore", HubId := "datastore-1" }, Warning := [],
      Error := [mismatch] } ]

/-- The three datastores, all rejected. -/
def verdictsNone3 : List types.PbmPlacementCompatibilityResult :=
  [ { Hub := { HubType := "Datastore", HubId := "datastore-1" }, Warning := [],
      Error := [mismatch] },
    { Hub := { HubType := "Datastore", HubId := "datastore-2" }, Warning := [],
      Error := [mismatch] },
    { Hub := { HubType := "Datastore", HubId := "datastore-3" }, Warning := [],
      Error := [mismatch] } ]

/-- The answer of `acceptAll` for the three datastores. -/
def verdictsAll3 : List types.PbmPlacementCompatibilityResult :=
  [ { Hub := { HubType := "Datastore", HubId := "datastore-1" }, Warning := [], Error := [] },
    { Hub := { HubType := "Datastore", HubId := "datastore-2" }, Warning := [], Error := [] },
    { Hub := { HubType := "Datastore", HubId := "datastore-3" }, Warning := [], Error := [] } ]

end double

/-! ## Properties -/

namespace pbm

open methods (Wire)

theorem foldl_append_singleton {α β : Type} (f : α → β) (l : List α) (init : List β) :
    l.foldl (fun acc x => acc ++ [f x]) init = init ++ l.map f := by
  induction l generalizing init with
  | nil => simp
  | cons x xs ih => simp [ih]

theorem foldl_append_if {α β : Type} (p : α → Prop) [DecidablePred p] (f : α → β)
    (l : List α) (init : List β) :
    l.foldl (fun acc x => if p x then acc ++ [f x] else acc) init
      = init ++ (l.filter (fun x => decide (p x))).map f := by
  induction l generalizing init with
  | nil => simp
  | cons x xs ih =>
    by_cases h : p x <;> simp [ih, h]

theorem hubsOf_eq_map (datastores : List vim.ManagedObjectReference) :
    hubsOf datastores = datastores.map hubOf := by
  simp [hubsOf, foldl_append_singleton]

theorem requirementsOf_eq_map (ids : List types.PbmProfileId) :
    requirementsOf ids
      = ids.map types.BasePbmPlacementRequirement.PbmPlacementCapabilityProfileRequirement := by
  simp [requirementsOf, foldl_append_singleton]

theorem invoke_ok {σ Req Res : Type} (handler : Req → σ → Except soap.TransportError Res × σ)
    (tag : Req → methods.Request) (req : Req) (w : Wire σ) (res : Res)
    (h : (handler req w.server).1 = Except.ok res) :
    methods.invoke handler tag req w
      = (Except.ok res, Wire.mk (handler req w.server).2 (w.sent ++ [tag req])) := by
  simp [methods.invoke, h]

theorem invoke_sent {σ Req Res : Type} (handler : Req → σ → Except soap.TransportError Res × σ)
    (tag : Req → methods.Request) (req : Req) (w : Wire σ) :
    (methods.invoke handler tag req w).2.sent = w.sent ++ [tag req] := by
  simp [methods.invoke]

/-- The request `CheckRequirements` builds from its arguments. -/
theorem CheckRequirements_ok {σ : Type} (c : Client σ) (hubs : List types.PbmPlacementHub)
    (ref : Option types.PbmServerObjectRef) (preq : List types.BasePbmPlacementRequirement)
    (w : Wire σ) (res : types.PbmCheckRequirementsResponse)
    (h : (c.Client.PbmCheckRequirements
            { This := c.ServiceContent.PlacementSolver, HubsToSearch := hubs,
              PlacementSubjectRef := ref, PlacementSubjectRequirement := preq } w.server).1
          = Except.ok res) :
    (CheckRequirements c hubs ref preq w).1 = (res.Returnval, none) := by
  simp [CheckRequirements, methods.PbmCheckRequirements, invoke_ok _ _ _ _ _ h]

theorem CheckRequirements_sent {σ : Type} (c : Client σ) (hubs : List types.PbmPlacementHub)
    (ref : Option types.PbmServerObjectRef) (preq : List types.BasePbmPlacementRequirement)
    (w : Wire σ) :
    (CheckRequirements c hubs ref preq w).2.sent
      = w.sent ++ [methods.Request.PbmCheckRequirements
          { This := c.ServiceContent.PlacementSolver, HubsToSearch := hubs,
            PlacementSubjectRef := ref, PlacementSubjectRequirement := preq }] := by
  unfold CheckRequirements methods.PbmCheckRequirements
  simp only []
  split <;> rename_i heq <;>
    · have := invoke_sent c.Client.PbmCheckRequirements methods.Request.PbmCheckRequirements
        { This := c.ServiceContent.PlacementSolver, HubsToSearch := hubs,
          PlacementSubjectRef := ref, PlacementSubjectRequirement := preq } w
      rw [heq] at this
      exact this

/-- What `GetCompatibleDatastores` returns once the check has answered. -/
theorem GetCompatibleDatastores_of_check {σ : Type} (c : Client σ)
    (datastores : List vim.ManagedObjectReference) (ref : Option types.PbmServerObjectRef)
    (ids : List types.PbmProfileId) (w : Wire σ)
    (R : List types.PbmPlacementCompatibilityResult)
    (h : (CheckRequirements c (hubsOf datastores) ref (requirementsOf ids) w).1 = (R, none)) :
    (GetCompatibleDatastores c datastores ref ids w).1
      = ((R.filter (fun res => decide (res.Error = []))).map refOf, none) := by
  unfold GetCompatibleDatastores
  simp only []
  split
  · rename_i heq; rw [heq] at h; simp at h
  · rename_i heq
    rw [heq] at h
    simp only [Prod.mk.injEq, and_true] at h
    subst h
    rw [foldl_append_if]
    simp [List.length_eq_zero]

/-- What `GetNonCompatibleDatastores` returns once the check has answered. -/
theorem GetNonCompatibleDatastores_of_check {σ : Type} (c : Client σ)
    (datastores : List vim.ManagedObjectReference) (ref : Option types.PbmServerObjectRef)
    (ids : List types.PbmProfileId) (w : Wire σ)
    (R : List types.PbmPlacementCompatibilityResult)
    (h : (CheckRequirements c (hubsOf datastores) none (requirementsOf ids) w).1 = (R, none)) :
    (GetNonCompatibleDatastores c datastores ref ids w).1
      = ((R.filter (fun res => decide (res.Error ≠ []))).map refOf, none) := by
  unfold GetNonCompatibleDatastores
  simp only []
  split
  · rename_i heq; rw [heq] at h; simp at h
  · rename_i heq
    rw [heq] at h
    simp only [Prod.mk.injEq, and_true] at h
    subst h
    rw [foldl_append_if]
    simp [List.length_pos]

/-- The compatible output in terms of the transport's answer. -/
theorem compatible_output_of_answer {σ : Type} (c : Client σ)
    (datastores : List vim.ManagedObjectReference) (ref : Option types.PbmServerObjectRef)
    (ids : List types.PbmProfileId) (w : Wire σ)
    (R : List types.PbmPlacementCompatibilityResult)
    (h : (c.Client.PbmCheckRequirements
            { This := c.ServiceContent.PlacementSolver,
              HubsToSearch := datastores.map hubOf,
              PlacementSubjectRef := ref,
              PlacementSubjectRequirement := ids.map
                types.BasePbmPlacementRequirement.PbmPlacementCapabilityProfileRequirement }
            w.server).1 = Except.ok { Returnval := R }) :
    (GetCompatibleDatastores c datastores ref ids w).1
      = ((R.filter (fun res => decide (res.Error = []))).map refOf, none) := by
  have hc : (CheckRequirements c (hubsOf datastores) ref (requirementsOf ids) w).1
      = (R, none) := by
    rw [hubsOf_eq_map, requirementsOf_eq_map]
    exact CheckRequirements_ok c _ ref _ w _ h
  exact GetCompatibleDatastores_of_check c datastores ref ids w R hc

/-- The non-compatible output in terms of the transport's answer. -/
theorem non_compatible_output_of_answer {σ : Type} (c : Client σ)
    (datastores : List vim.ManagedObjectReference) (ref : Option types.PbmServerObjectRef)
    (ids : List types.PbmProfileId) (w : Wire σ)
    (R : List types.PbmPlacementCompatibilityResult)
    (h : (c.Client.PbmCheckRequirements
            { This := c.ServiceContent.PlacementSolver,
              HubsToSearch := datastores.map hubOf,
              PlacementSubjectRef := none,
              PlacementSubjectRequirement := ids.map
                types.BasePbmPlacementRequirement.PbmPlacementCapabilityProfileRequirement }
            w.server).1 = Except.ok { Returnval := R }) :
    (GetNonCompatibleDatastores c datastores ref ids w).1
      = ((R.filter (fun res => decide (res.Error ≠ []))).map refOf, none) := by
  have hc : (CheckRequirements c (hubsOf datastores) none (requirementsOf ids) w).1
      = (R, none) := by
    rw [hubsOf_eq_map, requirementsOf_eq_map]
    exact CheckRequirements_ok c _ none _ w _ h
  exact GetNonCompatibleDatastores_of_check c datastores ref ids w R hc

/-- C1: whenever the transport answers the CheckRequirements call of
`GetCompatibleDatastores` with a result list `R`, the operation returns, with no error, the
results of `R` whose `Error` is empty, in the order of `R`, each as the reference
(`Hub.HubType`, `Hub.HubId`); results with a non-empty `Error` are left out and never become a
returned error. -/
theorem GetCompatibleDatastores_keeps_error_free_results {σ : Type} (c : Client σ)
    (datastores : List vim.ManagedObjectReference) (ref : Option types.PbmServerObjectRef)
    (ids : List types.PbmProfileId) (w : Wire σ)
    (R : List types.PbmPlacementCompatibilityResult)
    (h : (c.Client.PbmCheckRequirements
            { This := c.ServiceContent.PlacementSolver,
              HubsToSearch := datastores.map hubOf,
              PlacementSubjectRef := ref,
              PlacementSubjectRequirement := ids.map
                types.BasePbmPlacementRequirement.PbmPlacementCapabilityProfileRequirement }
            w.server).1 = Except.ok { Returnval := R }) :
    (GetCompatibleDatastores c datastores ref ids w).1
        = ((R.filter (fun res => decide (res.Error = []))).map
            (fun res => { Type_ := res.Hub.HubType, Value := res.Hub.HubId }), none)
      ∧ (∀ d ∈ (GetCompatibleDatastores c datastores ref ids w).1.1,
          ∃ res ∈ R, res.Error = [] ∧ d.Type_ = res.Hub.HubType ∧ d.Value = res.Hub.HubId) := by
  have hg := compatible_output_of_answer c datastores ref ids w R h
  refine ⟨hg, ?_⟩
  intro d hd
  rw [hg] at hd
  simp only [List.mem_map, List.mem_filter, decide_eq_true_eq] at hd
  obtain ⟨r, ⟨hr, he⟩, rfl⟩ := hd
  exact ⟨r, hr, he, rfl, rfl⟩

/-- Witness of C1: a server that rejects the second of three datastores. -/
theorem GetCompatibleDatastores_keeps_error_free_results_witness :
    (((double.server double.rejectOdd).client).Client.PbmCheckRequirements
        { This := ((double.server double.rejectOdd).client).ServiceContent.PlacementSolver,
          HubsToSearch := [double.ds1, double.ds2, double.ds3].map hubOf,
          PlacementSubjectRef := some double.disk,
          PlacementSubjectRequirement := [double.goldId].map
            types.BasePbmPlacementRequirement.PbmPlacementCapabilityProfileRequirement }
        double.wire0.server).1 = Except.ok { Returnval := double.verdicts3 }
      ∧ (GetCompatibleDatastores (double.server double.rejectOdd).client
          [double.ds1, double.ds2, double.ds3] (some double.disk) [double.goldId]
          double.wire0).1 = ([double.ds1, double.ds3], none) :=
  ⟨rfl,
    (GetCompatibleDatastores_keeps_error_free_results (double.server double.rejectOdd).client
      [double.ds1, double.ds2, double.ds3] (some double.disk) [double.goldId] double.wire0
      double.verdicts3 rfl).1⟩

theorem GetCompatibleDatastores_wire {σ : Type} (c : Client σ)
    (datastores : List vim.ManagedObjectReference) (ref : Option types.PbmServerObjectRef)
    (ids : List types.PbmProfileId) (w : Wire σ) :
    (GetCompatibleDatastores c datastores ref ids w).2
      = (CheckRequirements c (hubsOf datastores) ref (requirementsOf ids) w).2 := by
  unfold GetCompatibleDatastores
  simp only []
  split <;> rename_i heq <;> rw [heq]

theorem GetNonCompatibleDatastores_wire {σ : Type} (c : Client σ)
    (datastores : List vim.ManagedObjectReference) (ref : Option types.PbmServerObjectRef)
    (ids : List types.PbmProfileId) (w : Wire σ) :
    (GetNonCompatibleDatastores c datastores ref ids w).2
      = (CheckRequirements c (hubsOf datastores) none (requirementsOf ids) w).2 := by
  unfold GetNonCompatibleDatastores
  simp only []
  split <;> rename_i heq <;> rw [heq]

/-- C2: `GetNonCompatibleDatastores` sends exactly one CheckRequirements request, whose subject
reference is absent whatever `ref` is given, so that the whole outcome is the same for any two
`ref` arguments; and when the transport answers that request with `R`, the operation returns,
with no error, the results of `R` whose `Error` is non-empty, in the order of `R`, each as the
reference (`Hub.HubType`, `Hub.HubId`). -/
theorem GetNonCompatibleDatastores_ignores_ref_and_keeps_failures {σ : Type} (c : Client σ)
    (datastores : List vim.ManagedObjectReference) (ref : Option types.PbmServerObjectRef)
    (ids : List types.PbmProfileId) (w : Wire σ) :
    (GetNonCompatibleDatastores c datastores ref ids w).2.sent
        = w.sent ++ [methods.Request.PbmCheckRequirements
            { This := c.ServiceContent.PlacementSolver,
              HubsToSearch := datastores.map hubOf,
              PlacementSubjectRef := none,
              PlacementSubjectRequirement := ids.map
                types.BasePbmPlacementRequirement.PbmPlacementCapabilityProfileRequirement }]
      ∧ (∀ ref2 : Option types.PbmServerObjectRef,
          GetNonCompatibleDatastores c datastores ref2 ids w
            = GetNonCompatibleDatastores c datastores ref ids w)
      ∧ (∀ R : List types.PbmPlacementCompatibilityResult,
          (c.Client.PbmCheckRequirements
              { This := c.ServiceContent.PlacementSolver,
                HubsToSearch := datastores.map hubOf,
                PlacementSubjectRef := none,
                PlacementSubjectRequirement := ids.map
                  types.BasePbmPlacementRequirement.PbmPlacementCapabilityProfileRequirement }
              w.server).1 = Except.ok { Returnval := R } →
          (GetNonCompatibleDatastores c datastores ref ids w).1
            = ((R.filter (fun res => decide (res.Error ≠ []))).map
                (fun res => { Type_ := res.Hub.HubType, Value := res.Hub.HubId }), none)) := by
  refine ⟨?_, ?_, ?_⟩
  · rw [GetNonCompatibleDatastores_wire, CheckRequirements_sent, hubsOf_eq_map,
      requirementsOf_eq_map]
  · intro ref2
    rfl
  · intro R h
    exact non_compatible_output_of_answer c datastores ref ids w R h

/-- Witness of C2: a server that rejects the second of three datastores, asked with a subject
that the operation drops. -/
theorem GetNonCompatibleDatastores_ignores_ref_and_keeps_failures_witness :
    (((double.server double.rejectOdd).client).Client.PbmCheckRequirements
        { This := ((double.server double.rejectOdd).client).ServiceContent.PlacementSolver,
          HubsToSearch := [double.ds1, double.ds2, double.ds3].map hubOf,
          PlacementSubjectRef := none,
          PlacementSubjectRequirement := [double.goldId].map
            types.BasePbmPlacementRequirement.PbmPlacementCapabilityProfileRequirement }
        double.wire0.server).1 = Except.ok { Returnval := double.verdicts3 }
      ∧ (GetNonCompatibleDatastores (double.server double.rejectOdd).client
          [double.ds1, double.ds2, double.ds3] (some double.disk) [double.goldId]
          double.wire0).1 = ([double.ds2], none) :=
  ⟨rfl,
    (GetNonCompatibleDatastores_ignores_ref_and_keeps_failures
      (double.server double.rejectOdd).client [double.ds1, double.ds2, double.ds3]
      (some double.disk) [double.goldId] double.wire0).2.2 double.verdicts3 rfl⟩

/-- C10: `GetCompatibleDatastores` sends exactly one request, a CheckRequirements request
addressed to `ServiceContent.PlacementSolver`; its hub list has the length and order of the
datastore list, hub `i` being (`ds[i].Type`, `ds[i].Value`); its requirement list has the length
and order of the id list, requirement `i` being a capability-profile requirement carrying
`ids[i]`; its subject is the given `ref`.  The request is also sent for an empty datastore list,
and `GetNonCompatibleDatastores` sends the same hub and requirement lists. -/
theorem GetCompatibleDatastores_sends_one_check {σ : Type} (c : Client σ)
    (datastores : List vim.ManagedObjectReference) (ref : Option types.PbmServerObjectRef)
    (ids : List types.PbmProfileId) (w : Wire σ) :
    (∃ req : types.PbmCheckRequirements,
        (GetCompatibleDatastores c datastores ref ids w).2.sent
            = w.sent ++ [methods.Request.PbmCheckRequirements req]
          ∧ req.This = c.ServiceContent.PlacementSolver
          ∧ req.HubsToSearch
              = datastores.map (fun ds => { HubType := ds.Type_, HubId := ds.Value })
          ∧ req.HubsToSearch.length = datastores.length
          ∧ req.PlacementSubjectRequirement = ids.map
              types.BasePbmPlacementRequirement.PbmPlacementCapabilityProfileRequirement
          ∧ req.PlacementSubjectRequirement.length = ids.length
          ∧ req.PlacementSubjectRef = ref
          ∧ ∃ req2 : types.PbmCheckRequirements,
              (GetNonCompatibleDatastores c datastores ref ids w).2.sent
                  = w.sent ++ [methods.Request.PbmCheckRequirements req2]
                ∧ req2.HubsToSearch = req.HubsToSearch
                ∧ req2.PlacementSubjectRequirement = req.PlacementSubjectRequirement)
      ∧ (GetCompatibleDatastores c [] ref ids w).2.sent
          = w.sent ++ [methods.Request.PbmCheckRequirements
              { This := c.ServiceContent.PlacementSolver, HubsToSearch := [],
                PlacementSubjectRef := ref,
                PlacementSubjectRequirement := ids.map
                  types.BasePbmPlacementRequirement.PbmPlacementCapabilityProfileRequirement }] := by
  refine ⟨⟨{ This := c.ServiceContent.PlacementSolver, HubsToSearch := hubsOf datastores,
              PlacementSubjectRef := ref, PlacementSubjectRequirement := requirementsOf ids },
            ?_, rfl, ?_, ?_, ?_, ?_, rfl,
            { This := c.ServiceContent.PlacementSolver, HubsToSearch := hubsOf datastores,
              PlacementSubjectRef := none, PlacementSubjectRequirement := requirementsOf ids },
            ?_, rfl, rfl⟩, ?_⟩
  · rw [GetCompatibleDatastores_wire, CheckRequirements_sent]
  · simp only [hubsOf_eq_map]; rfl
  · simp [hubsOf_eq_map]
  · simp only [requirementsOf_eq_map]
  · simp [requirementsOf_eq_map]
  · rw [GetNonCompatibleDatastores_wire, CheckRequirements_sent]
  · rw [GetCompatibleDatastores_wire, CheckRequirements_sent, requirementsOf_eq_map]
    rfl

theorem refOf_hubOf (d : vim.ManagedObjectReference)
    (ws es : List vim.LocalizedMethodFault) :
    refOf { Hub := hubOf d, Warning := ws, Error := es } = d := rfl

theorem hubOf_injective : Function.Injective hubOf := by
  intro a b h
  cases a; cases b
  simp only [hubOf, types.PbmPlacementHub.mk.injEq] at h
  simp [h.1, h.2]

theorem refOf_eq_iff (r1 r2 : types.PbmPlacementCompatibilityResult) :
    refOf r1 = refOf r2 ↔ r1.Hub = r2.Hub := by
  obtain ⟨⟨t1, i1⟩, _, _⟩ := r1
  obtain ⟨⟨t2, i2⟩, _, _⟩ := r2
  simp [refOf]

theorem refOf_of_hub (r : types.PbmPlacementCompatibilityResult)
    (d : vim.ManagedObjectReference) (h : r.Hub = hubOf d) : refOf r = d := by
  obtain ⟨⟨t1, i1⟩, _, _⟩ := r
  cases d
  simp only [hubOf, types.PbmPlacementHub.mk.injEq] at h
  simp [refOf, h.1, h.2]

theorem length_filter_add_length_filter_not {α : Type} (p : α → Prop) [DecidablePred p]
    (l : List α) :
    (l.filter (fun x => decide (p x))).length + (l.filter (fun x => decide (¬ p x))).length
      = l.length := by
  induction l with
  | nil => rfl
  | cons x xs ih =>
    by_cases h : p x
    · simp [h] at ih ⊢; omega
    · simp [h] at ih ⊢; omega

/-- When the results echo the hubs of the datastores in order, a filtered output is the list of
the datastores standing at the positions of the results kept. -/
theorem filter_echo (p : types.PbmPlacementCompatibilityResult → Bool) :
    ∀ (datastores : List vim.ManagedObjectReference)
      (R : List types.PbmPlacementCompatibilityResult),
      R.map (fun res => res.Hub) = datastores.map hubOf →
      (R.filter p).map refOf
        = ((datastores.zip R).filter (fun dr => p dr.2)).map (fun dr => dr.1)
  | [], [], _ => rfl
  | [], _ :: _, h => by simp at h
  | _ :: _, [], h => by simp at h
  | d :: ds, r :: R, h => by
    simp only [List.map_cons, List.cons.injEq] at h
    have ih := filter_echo p ds R h.2
    have hr := refOf_of_hub r d h.1
    by_cases hp : p r = true
    · simp [List.filter_cons, hp, ih, hr]
    · simp [List.filter_cons, hp, ih]

/-- Counterexample to C3 as stated: the datastore list names the same datastore twice and the
response, which has one result per input hub, accepts the first occurrence and rejects the
second; the datastore is then in both outputs. -/
theorem partition_not_disjoint_on_repeated_datastore :
    (((double.server double.rejectOdd).client).Client.PbmCheckRequirements
        { This := ((double.server double.rejectOdd).client).ServiceContent.PlacementSolver,
          HubsToSearch := [double.ds1, double.ds1].map hubOf,
          PlacementSubjectRef := none,
          PlacementSubjectRequirement := [double.goldId].map
            types.BasePbmPlacementRequirement.PbmPlacementCapabilityProfileRequirement }
        double.wire0.server).1 = Except.ok { Returnval := double.verdictsTwice }
      ∧ double.verdictsTwice.map (fun res => res.Hub) = [double.ds1, double.ds1].map hubOf
      ∧ (GetCompatibleDatastores (double.server double.rejectOdd).client
          [double.ds1, double.ds1] none [double.goldId] double.wire0).1 = ([double.ds1], none)
      ∧ (GetNonCompatibleDatastores (double.server double.rejectOdd).client
          [double.ds1, double.ds1] none [double.goldId] double.wire0).1 = ([double.ds1], none)
      ∧ ¬ List.Disjoint
          (GetCompatibleDatastores (double.server double.rejectOdd).client
            [double.ds1, double.ds1] none [double.goldId] double.wire0).1.1
          (GetNonCompatibleDatastores (double.server double.rejectOdd).client
            [double.ds1, double.ds1] none [double.goldId] double.wire0).1.1 := by
  refine ⟨rfl, rfl, rfl, rfl, ?_⟩
  intro h
  exact h (a := double.ds1) (List.mem_singleton.mpr rfl) (List.mem_singleton.mpr rfl)

/-- C3, amended: when `GetCompatibleDatastores` and `GetNonCompatibleDatastores` are computed from
the same response `R`, and `R` holds exactly one result per input hub, the lengths of the two
outputs add up to the length of the input list; and whenever `R` gives no hub both an empty and
a non-empty `Error`, which is the case whenever the input list has no repeated reference, the
two outputs are disjoint and every input datastore is in exactly one of them. -/
theorem partition_complete {σ : Type} (c : Client σ)
    (datastores : List vim.ManagedObjectReference) (ref : Option types.PbmServerObjectRef)
    (ids : List types.PbmProfileId) (w1 w2 : Wire σ)
    (R : List types.PbmPlacementCompatibilityResult)
    (h1 : (c.Client.PbmCheckRequirements
            { This := c.ServiceContent.PlacementSolver,
              HubsToSearch := datastores.map hubOf,
              PlacementSubjectRef := ref,
              PlacementSubjectRequirement := ids.map
                types.BasePbmPlacementRequirement.PbmPlacementCapabilityProfileRequirement }
            w1.server).1 = Except.ok { Returnval := R })
    (h2 : (c.Client.PbmCheckRequirements
            { This := c.ServiceContent.PlacementSolver,
              HubsToSearch := datastores.map hubOf,
              PlacementSubjectRef := none,
              PlacementSubjectRequirement := ids.map
                types.BasePbmPlacementRequirement.PbmPlacementCapabilityProfileRequirement }
            w2.server).1 = Except.ok { Returnval := R })
    (hone : (R.map (fun res => res.Hub)).Perm (datastores.map hubOf)) :
    (GetCompatibleDatastores c datastores ref ids w1).1.1.length
        + (GetNonCompatibleDatastores c datastores ref ids w2).1.1.length = datastores.length
      ∧ ((∀ r1 ∈ R, ∀ r2 ∈ R, r1.Hub = r2.Hub → (r1.Error = [] ↔ r2.Error = [])) →
          List.Disjoint (GetCompatibleDatastores c datastores ref ids w1).1.1
              (GetNonCompatibleDatastores c datastores ref ids w2).1.1
            ∧ ∀ d ∈ datastores,
                (d ∈ (GetCompatibleDatastores c datastores ref ids w1).1.1
                    ∧ d ∉ (GetNonCompatibleDatastores c datastores ref ids w2).1.1)
                  ∨ (d ∉ (GetCompatibleDatastores c datastores ref ids w1).1.1
                    ∧ d ∈ (GetNonCompatibleDatastores c datastores ref ids w2).1.1))
      ∧ (datastores.Nodup →
          ∀ r1 ∈ R, ∀ r2 ∈ R, r1.Hub = r2.Hub → (r1.Error = [] ↔ r2.Error = [])) := by
  have hc := (compatible_output_of_answer c datastores ref ids w1 R h1)
  have hn := (non_compatible_output_of_answer c datastores ref ids w2 R h2)
  rw [hc, hn]
  have hdisj : (∀ r1 ∈ R, ∀ r2 ∈ R, r1.Hub = r2.Hub → (r1.Error = [] ↔ r2.Error = [])) →
      List.Disjoint ((R.filter (fun res => decide (res.Error = []))).map refOf)
        ((R.filter (fun res => decide (res.Error ≠ []))).map refOf) := by
    intro hcons d hd1 hd2
    simp only [List.mem_map, List.mem_filter, decide_eq_true_eq] at hd1 hd2
    obtain ⟨r1, ⟨hr1, he1⟩, rfl⟩ := hd1
    obtain ⟨r2, ⟨hr2, he2⟩, heq⟩ := hd2
    exact he2 ((hcons r1 hr1 r2 hr2 ((refOf_eq_iff r1 r2).mp heq.symm)).mp he1)
  refine ⟨?_, ?_, ?_⟩
  · simp only [List.length_map]
    rw [length_filter_add_length_filter_not (fun res : types.PbmPlacementCompatibilityResult =>
      res.Error = []) R]
    simpa using hone.length_eq
  · intro hcons
    refine ⟨hdisj hcons, ?_⟩
    intro d hd
    have hmem : hubOf d ∈ R.map (fun res => res.Hub) :=
      hone.mem_iff.mpr (List.mem_map_of_mem hubOf hd)
    obtain ⟨r, hr, hrd⟩ := List.mem_map.mp hmem
    have href := refOf_of_hub r d hrd
    by_cases he : r.Error = []
    · have hin : d ∈ (R.filter (fun res => decide (res.Error = []))).map refOf :=
        List.mem_map.mpr ⟨r, List.mem_filter.mpr ⟨hr, by simpa using he⟩, href⟩
      exact Or.inl ⟨hin, fun hout => hdisj hcons hin hout⟩
    · have hin : d ∈ (R.filter (fun res => decide (res.Error ≠ []))).map refOf :=
        List.mem_map.mpr ⟨r, List.mem_filter.mpr ⟨hr, by simpa using he⟩, href⟩
      exact Or.inr ⟨fun hout => hdisj hcons hout hin, hin⟩
  · intro hnd r1 hr1 r2 hr2 hhub
    have hnodup : (R.map (fun res => res.Hub)).Nodup :=
      hone.nodup_iff.mpr (hnd.map hubOf_injective)
    have : r1 = r2 := List.inj_on_of_nodup_map hnodup hr1 hr2 hhub
    rw [this]

/-- Witness of C3 (amended): three distinct datastores, the second rejected. -/
theorem partition_complete_witness :
    (((double.server double.rejectOdd).client).Client.PbmCheckRequirements
        { This := ((double.server double.rejectOdd).client).ServiceContent.PlacementSolver,
          HubsToSearch := [double.ds1, double.ds2, double.ds3].map hubOf,
          PlacementSubjectRef := some double.disk,
          PlacementSubjectRequirement := [double.goldId].map
            types.BasePbmPlacementRequirement.PbmPlacementCapabilityProfileRequirement }
        double.wire0.server).1 = Except.ok { Returnval := double.verdicts3 }
      ∧ (((double.server double.rejectOdd).client).Client.PbmCheckRequirements
        { This := ((double.server double.rejectOdd).client).ServiceContent.PlacementSolver,
          HubsToSearch := [double.ds1, double.ds2, double.ds3].map hubOf,
          PlacementSubjectRef := none,
          PlacementSubjectRequirement := [double.goldId].map
            types.BasePbmPlacementRequirement.PbmPlacementCapabilityProfileRequirement }
        double.wire0.server).1 = Except.ok { Returnval := double.verdicts3 }
      ∧ (double.verdicts3.map (fun res => res.Hub)).Perm
          ([double.ds1, double.ds2, double.ds3].map hubOf)
      ∧ [double.ds1, double.ds2, double.ds3].Nodup
      ∧ (GetCompatibleDatastores (double.server double.rejectOdd).client
            [double.ds1, double.ds2, double.ds3] (some double.disk) [double.goldId]
            double.wire0).1.1.length
          + (GetNonCompatibleDatastores (double.server double.rejectOdd).client
            [double.ds1, double.ds2, double.ds3] (some double.disk) [double.goldId]
            double.wire0).1.1.length = 3
      ∧ List.Disjoint
          (GetCompatibleDatastores (double.server double.rejectOdd).client
            [double.ds1, double.ds2, double.ds3] (some double.disk) [double.goldId]
            double.wire0).1.1
          (GetNonCompatibleDatastores (double.server double.rejectOdd).client
            [double.ds1, double.ds2, double.ds3] (some double.disk) [double.goldId]
            double.wire0).1.1 :=
  have hone : (double.verdicts3.map (fun res => res.Hub)).Perm
      ([double.ds1, double.ds2, double.ds3].map hubOf) := List.Perm.refl _
  have hnd : [double.ds1, double.ds2, double.ds3].Nodup := by decide
  have key := partition_complete (double.server double.rejectOdd).client
    [double.ds1, double.ds2, double.ds3] (some double.disk) [double.goldId]
    double.wire0 double.wire0 double.verdicts3 rfl rfl hone
  ⟨rfl, rfl, hone, hnd, key.1, (key.2.1 (key.2.2 hnd)).1⟩

/-- When the results echo the hubs of the datastores in order, the datastores paired with their
results give back the datastores. -/
theorem zip_echo_fst (datastores : List vim.ManagedObjectReference)
    (R : List types.PbmPlacementCompatibilityResult)
    (hecho : R.map (fun res => res.Hub) = datastores.map hubOf) :
    (datastores.zip R).map (fun dr => dr.1) = datastores := by
  have hlen : datastores.length = R.length := by
    have := congrArg List.length hecho
    simpa using this.symm
  have := List.map_fst_zip datastores R (le_of_eq hlen)
  simpa using this

theorem zip_echo_sublist (datastores : List vim.ManagedObjectReference)
    (R : List types.PbmPlacementCompatibilityResult)
    (hecho : R.map (fun res => res.Hub) = datastores.map hubOf)
    (p : types.PbmPlacementCompatibilityResult → Bool) :
    List.Sublist (((datastores.zip R).filter (fun dr => p dr.2)).map (fun dr => dr.1))
      datastores := by
  have := (List.filter_sublist (p := fun dr => p dr.2) (datastores.zip R)).map
    (fun dr : vim.ManagedObjectReference × types.PbmPlacementCompatibilityResult => dr.1)
  rwa [zip_echo_fst datastores R hecho] at this

theorem zip_echo_all (datastores : List vim.ManagedObjectReference)
    (R : List types.PbmPlacementCompatibilityResult)
    (hecho : R.map (fun res => res.Hub) = datastores.map hubOf)
    (p : types.PbmPlacementCompatibilityResult → Bool) (hall : ∀ res ∈ R, p res = true) :
    ((datastores.zip R).filter (fun dr => p dr.2)).map (fun dr => dr.1) = datastores := by
  have hfilter : (datastores.zip R).filter (fun dr => p dr.2) = datastores.zip R := by
    apply List.filter_eq_self.mpr
    intro dr hdr
    exact hall dr.2 (List.of_mem_zip hdr).2
  rw [hfilter, zip_echo_fst datastores R hecho]

/-- C4: turning a datastore reference into a hub and the hub back into a reference gives the
reference itself.  Hence, for each of the two operations taken on its own: when the response to
its request echoes each input hub once in input order, the output of
`GetCompatibleDatastores` is the list of the input references standing at the positions of the
results with an empty `Error`, and the output of `GetNonCompatibleDatastores` the list of those
standing at the positions of the results with a non-empty `Error` (each a sublist of the input
list); and when every echoed result has an empty `Error`, `GetCompatibleDatastores` returns
the input list itself (likewise `GetNonCompatibleDatastores` when every echoed result has a
non-empty `Error`). -/
theorem verbatim_round_trip {σ : Type} (c : Client σ)
    (datastores : List vim.ManagedObjectReference) (ref : Option types.PbmServerObjectRef)
    (ids : List types.PbmProfileId) (w : Wire σ) :
    (∀ (d : vim.ManagedObjectReference) (ws es : List vim.LocalizedMethodFault),
        (hubOf d).HubType = d.Type_ ∧ (hubOf d).HubId = d.Value
          ∧ refOf { Hub := hubOf d, Warning := ws, Error := es } = d)
      ∧ (∀ R : List types.PbmPlacementCompatibilityResult,
          (c.Client.PbmCheckRequirements
              { This := c.ServiceContent.PlacementSolver,
                HubsToSearch := datastores.map hubOf,
                PlacementSubjectRef := ref,
                PlacementSubjectRequirement := ids.map
                  types.BasePbmPlacementRequirement.PbmPlacementCapabilityProfileRequirement }
              w.server).1 = Except.ok { Returnval := R } →
          R.map (fun res => res.Hub) = datastores.map hubOf →
          (GetCompatibleDatastores c datastores ref ids w).1
              = (((datastores.zip R).filter (fun dr => decide (dr.2.Error = []))).map
                  (fun dr => dr.1), none)
            ∧ List.Sublist (GetCompatibleDatastores c datastores ref ids w).1.1 datastores
            ∧ ((∀ res ∈ R, res.Error = []) →
                (GetCompatibleDatastores c datastores ref ids w).1 = (datastores, none)))
      ∧ (∀ R : List types.PbmPlacementCompatibilityResult,
          (c.Client.PbmCheckRequirements
              { This := c.ServiceContent.PlacementSolver,
                HubsToSearch := datastores.map hubOf,
                PlacementSubjectRef := none,
                PlacementSubjectRequirement := ids.map
                  types.BasePbmPlacementRequirement.PbmPlacementCapabilityProfileRequirement }
              w.server).1 = Except.ok { Returnval := R } →
          R.map (fun res => res.Hub) = datastores.map hubOf →
          (GetNonCompatibleDatastores c datastores ref ids w).1
              = (((datastores.zip R).filter (fun dr => decide (dr.2.Error ≠ []))).map
                  (fun dr => dr.1), none)
            ∧ List.Sublist (GetNonCompatibleDatastores c datastores ref ids w).1.1 datastores
            ∧ ((∀ res ∈ R, res.Error ≠ []) →
                (GetNonCompatibleDatastores c datastores ref ids w).1 = (datastores, none))) := by
  refine ⟨fun d ws es => ⟨rfl, rfl, rfl⟩, ?_, ?_⟩
  · intro R h hecho
    have hc := compatible_output_of_answer c datastores ref ids w R h
    have ec := filter_echo (fun res => decide (res.Error = [])) datastores R hecho
    rw [hc, ec]
    refine ⟨rfl, zip_echo_sublist datastores R hecho (fun res => decide (res.Error = [])), ?_⟩
    intro hall
    rw [zip_echo_all datastores R hecho (fun res => decide (res.Error = []))
      (fun res hres => by simpa using hall res hres)]
  · intro R h hecho
    have hn := non_compatible_output_of_answer c datastores ref ids w R h
    have en := filter_echo (fun res => decide (res.Error ≠ [])) datastores R hecho
    rw [hn, en]
    refine ⟨rfl, zip_echo_sublist datastores R hecho (fun res => decide (res.Error ≠ [])), ?_⟩
    intro hall
    rw [zip_echo_all datastores R hecho (fun res => decide (res.Error ≠ []))
      (fun res hres => by simpa using hall res hres)]

/-- Witness of C4: three datastores on a server that accepts every hub for a given subject and
rejects every hub when no subject is given; asked with a subject, `GetCompatibleDatastores`
returns the input list, and `GetNonCompatibleDatastores`, which asks without the subject,
returns the input list as well. -/
theorem verbatim_round_trip_witness :
    (((double.server double.subjectOnly).client).Client.PbmCheckRequirements
        { This := ((double.server double.subjectOnly).client).ServiceContent.PlacementSolver,
          HubsToSearch := [double.ds1, double.ds2, double.ds3].map hubOf,
          PlacementSubjectRef := some double.disk,
          PlacementSubjectRequirement := [double.goldId].map
            types.BasePbmPlacementRequirement.PbmPlacementCapabilityProfileRequirement }
        double.wire0.server).1 = Except.ok { Returnval := double.verdictsAll3 }
      ∧ double.verdictsAll3.map (fun res => res.Hub)
          = [double.ds1, double.ds2, double.ds3].map hubOf
      ∧ (∀ res ∈ double.verdictsAll3, res.Error = [])
      ∧ (GetCompatibleDatastores (double.server double.subjectOnly).client
            [double.ds1, double.ds2, double.ds3] (some double.disk) [double.goldId]
            double.wire0).1 = ([double.ds1, double.ds2, double.ds3], none)
      ∧ (((double.server double.subjectOnly).client).Client.PbmCheckRequirements
        { This := ((double.server double.subjectOnly).client).ServiceContent.PlacementSolver,
          HubsToSearch := [double.ds1, double.ds2, double.ds3].map hubOf,
          PlacementSubjectRef := none,
          PlacementSubjectRequirement := [double.goldId].map
            types.BasePbmPlacementRequirement.PbmPlacementCapabilityProfileRequirement }
        double.wire0.server).1 = Except.ok { Returnval := double.verdictsNone3 }
      ∧ double.verdictsNone3.map (fun res => res.Hub)
          = [double.ds1, double.ds2, double.ds3].map hubOf
      ∧ (∀ res ∈ double.verdictsNone3, res.Error ≠ [])
      ∧ (GetNonCompatibleDatastores (double.server double.subjectOnly).client
            [double.ds1, double.ds2, double.ds3] (some double.disk) [double.goldId]
            double.wire0).1 = ([double.ds1, double.ds2, double.ds3], none) :=
  have hall : ∀ res ∈ double.verdictsAll3, res.Error = [] := by decide
  have hnone : ∀ res ∈ double.verdictsNone3, res.Error ≠ [] := by decide
  have key := verbatim_round_trip (double.server double.subjectOnly).client
    [double.ds1, double.ds2, double.ds3] (some double.disk) [double.goldId] double.wire0
  ⟨rfl, rfl, hall, (key.2.1 double.verdictsAll3 rfl rfl).2.2 hall,
    rfl, rfl, hnone, (key.2.2 double.verdictsNone3 rfl rfl).2.2 hnone⟩

/-- The answer of a scripted server that is up to a compatibility check. -/
theorem double_check_answer
    (check : types.PbmCheckRequirements → List types.PbmPlacementCompatibilityResult)
    (req : types.PbmCheckRequirements) (n : Nat) :
    ((double.server check).client.Client.PbmCheckRequirements req n).1
      = Except.ok { Returnval := check req } := rfl

/-- C7: the two operations are independent calls with different subjects, and there is a server
double on which they are not complements.  On every scripted server, whatever its verdicts
`check`, `GetCompatibleDatastores` with subject `S` sends one check carrying `S` and returns
the accepted hubs of the answer to that request, while `GetNonCompatibleDatastores` given the
same `S` sends one check carrying no subject and returns the rejected hubs of the answer to
that other request.  For the server that accepts every hub with a subject and rejects every hub
without one (so that it answers the two requests differently), the subject `disk`, two
datastores and one profile id, both outputs are the whole input list: every input datastore is
in both outputs, and the non-compatible output is not the part of the input left out of the
compatible output. -/
theorem compatible_and_non_compatible_not_complements :
    (∀ (check : types.PbmCheckRequirements → List types.PbmPlacementCompatibilityResult)
        (S : types.PbmServerObjectRef) (datastores : List vim.ManagedObjectReference)
        (ids : List types.PbmProfileId) (w : Wire Nat),
        (GetCompatibleDatastores (double.server check).client datastores (some S) ids w).2.sent
            = w.sent ++ [methods.Request.PbmCheckRequirements
                { This := double.content.PlacementSolver,
                  HubsToSearch := datastores.map hubOf,
                  PlacementSubjectRef := some S,
                  PlacementSubjectRequirement := ids.map
                    types.BasePbmPlacementRequirement.PbmPlacementCapabilityProfileRequirement }]
          ∧ (GetCompatibleDatastores (double.server check).client datastores (some S) ids w).1
            = (((check
                  { This := double.content.PlacementSolver,
                    HubsToSearch := datastores.map hubOf,
                    PlacementSubjectRef := some S,
                    PlacementSubjectRequirement := ids.map
                      types.BasePbmPlacementRequirement.PbmPlacementCapabilityProfileRequirement }).filter
                  (fun res => decide (res.Error = []))).map refOf, none)
          ∧ (GetNonCompatibleDatastores (double.server check).client datastores (some S) ids
              w).2.sent
            = w.sent ++ [methods.Request.PbmCheckRequirements
                { This := double.content.PlacementSolver,
                  HubsToSearch := datastores.map hubOf,
                  PlacementSubjectRef := none,
                  PlacementSubjectRequirement := ids.map
                    types.BasePbmPlacementRequirement.PbmPlacementCapabilityProfileRequirement }]
          ∧ (GetNonCompatibleDatastores (double.server check).client datastores (some S) ids
              w).1
            = (((check
                  { This := double.content.PlacementSolver,
                    HubsToSearch := datastores.map hubOf,
                    PlacementSubjectRef := none,
                    PlacementSubjectRequirement := ids.map
                      types.BasePbmPlacementRequirement.PbmPlacementCapabilityProfileRequirement }).filter
                  (fun res => decide (res.Error ≠ []))).map refOf, none))
      ∧ double.subjectOnly
            { This := double.content.PlacementSolver,
              HubsToSearch := [double.ds1, double.ds2].map hubOf,
              PlacementSubjectRef := some double.disk,
              PlacementSubjectRequirement := [double.goldId].map
                types.BasePbmPlacementRequirement.PbmPlacementCapabilityProfileRequirement }
          ≠ double.subjectOnly
            { This := double.content.PlacementSolver,
              HubsToSearch := [double.ds1, double.ds2].map hubOf,
              PlacementSubjectRef := none,
              PlacementSubjectRequirement := [double.goldId].map
                types.BasePbmPlacementRequirement.PbmPlacementCapabilityProfileRequirement }
      ∧ (GetCompatibleDatastores (double.server double.subjectOnly).client
            [double.ds1, double.ds2] (some double.disk) [double.goldId] double.wire0).1
          = ([double.ds1, double.ds2], none)
      ∧ (GetNonCompatibleDatastores (double.server double.subjectOnly).client
            [double.ds1, double.ds2] (some double.disk) [double.goldId] double.wire0).1
          = ([double.ds1, double.ds2], none)
      ∧ (∀ d ∈ [double.ds1, double.ds2],
          d ∈ (GetCompatibleDatastores (double.server double.subjectOnly).client
                [double.ds1, double.ds2] (some double.disk) [double.goldId] double.wire0).1.1
            ∧ d ∈ (GetNonCompatibleDatastores (double.server double.subjectOnly).client
                [double.ds1, double.ds2] (some double.disk) [double.goldId]
                double.wire0).1.1)
      ∧ [double.ds1, double.ds2].filter
            (fun d => decide (d ∉ (GetCompatibleDatastores
                (double.server double.subjectOnly).client [double.ds1, double.ds2]
                (some double.disk) [double.goldId] double.wire0).1.1))
          ≠ (GetNonCompatibleDatastores (double.server double.subjectOnly).client
              [double.ds1, double.ds2] (some double.disk) [double.goldId]
              double.wire0).1.1 := by
  have hc : (GetCompatibleDatastores (double.server double.subjectOnly).client
      [double.ds1, double.ds2] (some double.disk) [double.goldId] double.wire0).1
      = ([double.ds1, double.ds2], none) := rfl
  have hn : (GetNonCompatibleDatastores (double.server double.subjectOnly).client
      [double.ds1, double.ds2] (some double.disk) [double.goldId] double.wire0).1
      = ([double.ds1, double.ds2], none) := rfl
  refine ⟨?_, by decide, hc, hn, ?_, ?_⟩
  · intro check S datastores ids w
    refine ⟨?_, ?_, ?_, ?_⟩
    · rw [GetCompatibleDatastores_wire, CheckRequirements_sent, hubsOf_eq_map,
        requirementsOf_eq_map]
      rfl
    · exact compatible_output_of_answer (double.server check).client datastores (some S) ids w
        _ (double_check_answer check _ _)
    · rw [GetNonCompatibleDatastores_wire, CheckRequirements_sent, hubsOf_eq_map,
        requirementsOf_eq_map]
      rfl
    · exact non_compatible_output_of_answer (double.server check).client datastores (some S)
        ids w _ (double_check_answer check _ _)
  · rw [hc, hn]
    intro d hd
    exact ⟨hd, hd⟩
  · rw [hc, hn]
    decide

theorem scanProfiles_none (profileName : String) (profiles : List types.BasePbmProfile)
    (h : ∀ p ∈ profiles, p.GetPbmProfile.Name ≠ profileName) :
    scanProfiles profileName profiles
      = ("", some (Error.errorf "No PBM profile found with name: %q" [profileName])) := by
  induction profiles with
  | nil => rfl
  | cons p rest ih =>
    have hp : p.GetPbmProfile.Name ≠ profileName := h p (List.mem_cons_self _ _)
    have hrest := ih (fun q hq => h q (List.mem_cons_of_mem _ hq))
    simp [scanProfiles, hp, hrest]

theorem scanProfiles_first (profileName : String) (pre post : List types.BasePbmProfile)
    (p : types.BasePbmProfile) (hpre : ∀ x ∈ pre, x.GetPbmProfile.Name ≠ profileName)
    (hp : p.GetPbmProfile.Name = profileName) :
    scanProfiles profileName (pre ++ p :: post) = (p.GetPbmProfile.ProfileId.UniqueId, none) := by
  induction pre with
  | nil => simp [scanProfiles, hp]
  | cons x xs ih =>
    have hx : x.GetPbmProfile.Name ≠ profileName := hpre x (List.mem_cons_self _ _)
    have hxs := ih (fun q hq => hpre q (List.mem_cons_of_mem _ hq))
    simp [scanProfiles, hx, hxs]

theorem exists_first_match (profileName : String) (profiles : List types.BasePbmProfile)
    (h : ∃ p ∈ profiles, p.GetPbmProfile.Name = profileName) :
    ∃ pre p post, profiles = pre ++ p :: post
      ∧ (∀ x ∈ pre, x.GetPbmProfile.Name ≠ profileName)
      ∧ p.GetPbmProfile.Name = profileName := by
  induction profiles with
  | nil => simp at h
  | cons q rest ih =>
    by_cases hq : q.GetPbmProfile.Name = profileName
    · exact ⟨[], q, rest, rfl, by simp, hq⟩
    · have hrest : ∃ p ∈ rest, p.GetPbmProfile.Name = profileName := by
        obtain ⟨p, hp, hn⟩ := h
        rcases List.mem_cons.mp hp with rfl | hp
        · exact absurd hn hq
        · exact ⟨p, hp, hn⟩
      obtain ⟨pre, p, post, he, hpre, hp⟩ := ih hrest
      refine ⟨q :: pre, p, post, by simp [he], ?_, hp⟩
      intro x hx
      rcases List.mem_cons.mp hx with rfl | hx
      · exact hq
      · exact hpre x hx

/-- The outcome of `GetPbmProfileIDByName` when both round trips succeed: the scan of the
profiles retrieved. -/
theorem GetPbmProfileIDByName_of_profiles {σ : Type} (c : Client σ) (profileName : String)
    (w : Wire σ) (ids : List types.PbmProfileId) (profiles : List types.BasePbmProfile)
    (hq : (c.Client.PbmQueryProfile
            { This := c.ServiceContent.ProfileManager,
              ResourceType := { ResourceType := types.PbmProfileResourceTypeEnumSTORAGE },
              ProfileCategory := types.PbmProfileCategoryEnumREQUIREMENT } w.server).1
          = Except.ok { Returnval := ids })
    (hr : (c.Client.PbmRetrieveContent
            { This := c.ServiceContent.ProfileManager, ProfileIds := ids }
            (c.Client.PbmQueryProfile
              { This := c.ServiceContent.ProfileManager,
                ResourceType := { ResourceType := types.PbmProfileResourceTypeEnumSTORAGE },
                ProfileCategory := types.PbmProfileCategoryEnumREQUIREMENT } w.server).2).1
          = Except.ok { Returnval := profiles }) :
    (GetPbmProfileIDByName c profileName w).1 = scanProfiles profileName profiles := by
  simp [GetPbmProfileIDByName, QueryProfile, RetrieveContent, methods.PbmQueryProfile,
    methods.PbmRetrieveContent, methods.invoke, hq, hr]

/-- C5: when both round trips of `GetPbmProfileIDByName` succeed and some retrieved profile has
a display name equal to the query name (string equality), the operation returns, with no error,
the `ProfileId.UniqueId` of the first such profile in the order the server returned them: every
profile before it has a different name and is passed over, one differing only in letter case
included.  In particular, when exactly one profile has the name, its identifier is returned. -/
theorem GetPbmProfileIDByName_returns_first_match {σ : Type} (c : Client σ)
    (profileName : String) (w : Wire σ) (ids : List types.PbmProfileId)
    (profiles : List types.BasePbmProfile)
    (hq : (c.Client.PbmQueryProfile
            { This := c.ServiceContent.ProfileManager,
              ResourceType := { ResourceType := types.PbmProfileResourceTypeEnumSTORAGE },
              ProfileCategory := types.PbmProfileCategoryEnumREQUIREMENT } w.server).1
          = Except.ok { Returnval := ids })
    (hr : (c.Client.PbmRetrieveContent
            { This := c.ServiceContent.ProfileManager, ProfileIds := ids }
            (c.Client.PbmQueryProfile
              { This := c.ServiceContent.ProfileManager,
                ResourceType := { ResourceType := types.PbmProfileResourceTypeEnumSTORAGE },
                ProfileCategory := types.PbmProfileCategoryEnumREQUIREMENT } w.server).2).1
          = Except.ok { Returnval := profiles })
    (hmatch : ∃ p ∈ profiles, p.GetPbmProfile.Name = profileName) :
    (∃ pre p post, profiles = pre ++ p :: post
        ∧ (∀ x ∈ pre, x.GetPbmProfile.Name ≠ profileName)
        ∧ p.GetPbmProfile.Name = profileName
        ∧ (GetPbmProfileIDByName c profileName w).1
            = (p.GetPbmProfile.ProfileId.UniqueId, none))
      ∧ (∀ p ∈ profiles, p.GetPbmProfile.Name = profileName →
          (∀ q ∈ profiles, q.GetPbmProfile.Name = profileName → q = p) →
          (GetPbmProfileIDByName c profileName w).1
            = (p.GetPbmProfile.ProfileId.UniqueId, none)) := by
  have hscan := GetPbmProfileIDByName_of_profiles c profileName w ids profiles hq hr
  obtain ⟨pre, p, post, he, hpre, hp⟩ := exists_first_match profileName profiles hmatch
  have hres : (GetPbmProfileIDByName c profileName w).1
      = (p.GetPbmProfile.ProfileId.UniqueId, none) := by
    rw [hscan, he]
    exact scanProfiles_first profileName pre post p hpre hp
  refine ⟨⟨pre, p, post, he, hpre, hp, hres⟩, ?_⟩
  intro p2 _ _ huniq
  have hmem : p ∈ profiles := by rw [he]; simp
  rw [← huniq p hmem hp]
  exact hres

/-- Witness of C5: the server holds gold (id 1), Silver (id 3) and silver (id 2), in this order;
the query "silver" gives "2". -/
theorem GetPbmProfileIDByName_returns_first_match_witness :
    (∃ p ∈ double.profiles, p.GetPbmProfile.Name = "silver")
      ∧ (GetPbmProfileIDByName (double.server double.acceptAll).client "silver"
          double.wire0).1 = ("2", none) :=
  have hmatch : ∃ p ∈ double.profiles, p.GetPbmProfile.Name = "silver" :=
    ⟨{ GetPbmProfile := { ProfileId := double.silverId, Name := "silver", Description := "" } },
      by simp [double.profiles], rfl⟩
  ⟨hmatch,
    ((GetPbmProfileIDByName_returns_first_match (double.server double.acceptAll).client
        "silver" double.wire0 double.profileIds double.profiles rfl rfl hmatch).2
      { GetPbmProfile := { ProfileId := double.silverId, Name := "silver", Description := "" } }
      (by simp [double.profiles]) rfl (by decide))⟩

/-- C6: when both round trips of `GetPbmProfileIDByName` succeed, the operation fails if and
only if no retrieved profile has a display name equal to the query name; it then returns the
empty identifier together with the error built by `fmt.Errorf` from the format
"No PBM profile found with name: %q" and the requested name, and the error it returns is never
an error of the transport. -/
theorem GetPbmProfileIDByName_fails_iff_no_match {σ : Type} (c : Client σ)
    (profileName : String) (w : Wire σ) (ids : List types.PbmProfileId)
    (profiles : List types.BasePbmProfile)
    (hq : (c.Client.PbmQueryProfile
            { This := c.ServiceContent.ProfileManager,
              ResourceType := { ResourceType := types.PbmProfileResourceTypeEnumSTORAGE },
              ProfileCategory := types.PbmProfileCategoryEnumREQUIREMENT } w.server).1
          = Except.ok { Returnval := ids })
    (hr : (c.Client.PbmRetrieveContent
            { This := c.ServiceContent.ProfileManager, ProfileIds := ids }
            (c.Client.PbmQueryProfile
              { This := c.ServiceContent.ProfileManager,
                ResourceType := { ResourceType := types.PbmProfileResourceTypeEnumSTORAGE },
                ProfileCategory := types.PbmProfileCategoryEnumREQUIREMENT } w.server).2).1
          = Except.ok { Returnval := profiles }) :
    ((GetPbmProfileIDByName c profileName w).1.2 ≠ none
        ↔ ∀ p ∈ profiles, p.GetPbmProfile.Name ≠ profileName)
      ∧ ((∀ p ∈ profiles, p.GetPbmProfile.Name ≠ profileName) →
          (GetPbmProfileIDByName c profileName w).1
            = ("", some (Error.errorf "No PBM profile found with name: %q" [profileName])))
      ∧ (∀ e : soap.TransportError,
          (GetPbmProfileIDByName c profileName w).1.2 ≠ some (Error.transport e)) := by
  have hscan := GetPbmProfileIDByName_of_profiles c profileName w ids profiles hq hr
  rw [hscan]
  by_cases hmatch : ∃ p ∈ profiles, p.GetPbmProfile.Name = profileName
  · obtain ⟨pre, p, post, he, hpre, hp⟩ := exists_first_match profileName profiles hmatch
    have hres := scanProfiles_first profileName pre post p hpre hp
    rw [← he] at hres
    have hno : ¬ ∀ p ∈ profiles, p.GetPbmProfile.Name ≠ profileName := by
      intro hall
      obtain ⟨q, hq2, hn⟩ := hmatch
      exact hall q hq2 hn
    refine ⟨?_, fun hall => absurd hall hno, ?_⟩
    · rw [hres]; simp only [ne_eq, not_true_eq_false, false_iff]; exact hno
    · intro e; rw [hres]; simp
  · have hall : ∀ p ∈ profiles, p.GetPbmProfile.Name ≠ profileName := by
      intro p hp hn
      exact hmatch ⟨p, hp, hn⟩
    have hres := scanProfiles_none profileName profiles hall
    refine ⟨?_, fun _ => hres, ?_⟩
    · rw [hres]; simp only [ne_eq, reduceCtorEq, not_false_eq_true, true_iff]; exact hall
    · intro e; rw [hres]; simp

/-- Witness of C6: the server holds gold, Silver and silver; the query "bronze" fails with the
not-found error carrying "bronze". -/
theorem GetPbmProfileIDByName_fails_iff_no_match_witness :
    (∀ p ∈ double.profiles, p.GetPbmProfile.Name ≠ "bronze")
      ∧ (GetPbmProfileIDByName (double.server double.acceptAll).client "bronze"
          double.wire0).1
          = ("", some (Error.errorf "No PBM profile found with name: %q" ["bronze"])) :=
  have hall : ∀ p ∈ double.profiles, p.GetPbmProfile.Name ≠ "bronze" := by decide
  ⟨hall,
    (GetPbmProfileIDByName_fails_iff_no_match (double.server double.acceptAll).client
      "bronze" double.wire0 double.profileIds double.profiles rfl rfl).2.1 hall⟩

/-- C8: when a round trip issued by an operation fails with the transport error `e`, the
operation returns `e` itself together with the zero value of its result type (the nil list, the
empty string, the zero `PbmProfileId`), having sent that one request and no other.  For
`GetPbmProfileIDByName`, a failure of the first round trip leaves the second one unsent, and a
failure of the second is returned in the same way. -/
theorem transport_error_returned_unchanged {σ : Type} (c : Client σ) (w : Wire σ)
    (e : soap.TransportError) :
    (∀ (rtype : types.PbmProfileResourceType) (category : String),
        (c.Client.PbmQueryProfile
            { This := c.ServiceContent.ProfileManager, ResourceType := rtype,
              ProfileCategory := category } w.server).1 = Except.error e →
        (QueryProfile c rtype category w).1 = ([], some (Error.transport e))
          ∧ (QueryProfile c rtype category w).2.sent
              = w.sent ++ [methods.Request.PbmQueryProfile
                  { This := c.ServiceContent.ProfileManager, ResourceType := rtype,
                    ProfileCategory := category }])
      ∧ (∀ ids : List types.PbmProfileId,
        (c.Client.PbmRetrieveContent
            { This := c.ServiceContent.ProfileManager, ProfileIds := ids } w.server).1
          = Except.error e →
        (RetrieveContent c ids w).1 = ([], some (Error.transport e))
          ∧ (RetrieveContent c ids w).2.sent
              = w.sent ++ [methods.Request.PbmRetrieveContent
                  { This := c.ServiceContent.ProfileManager, ProfileIds := ids }])
      ∧ (∀ (hubs : List types.PbmPlacementHub) (ref : Option types.PbmServerObjectRef)
          (preq : List types.BasePbmPlacementRequirement),
        (c.Client.PbmCheckRequirements
            { This := c.ServiceContent.PlacementSolver, HubsToSearch := hubs,
              PlacementSubjectRef := ref, PlacementSubjectRequirement := preq } w.server).1
          = Except.error e →
        (CheckRequirements c hubs ref preq w).1 = ([], some (Error.transport e))
          ∧ (CheckRequirements c hubs ref preq w).2.sent
              = w.sent ++ [methods.Request.PbmCheckRequirements
                  { This := c.ServiceContent.PlacementSolver, HubsToSearch := hubs,
                    PlacementSubjectRef := ref, PlacementSubjectRequirement := preq }])
      ∧ (∀ (datastores : List vim.ManagedObjectReference)
          (ref : Option types.PbmServerObjectRef) (ids : List types.PbmProfileId),
        (c.Client.PbmCheckRequirements
            { This := c.ServiceContent.PlacementSolver, HubsToSearch := datastores.map hubOf,
              PlacementSubjectRef := ref,
              PlacementSubjectRequirement := ids.map
                        types.BasePbmPlacementRequirement.PbmPlacementCapabilityProfileRequirement } w.server).1
          = Except.error e →
        (GetCompatibleDatastores c datastores ref ids w).1 = ([], some (Error.transport e))
          ∧ (GetCompatibleDatastores c datastores ref ids w).2.sent
              = w.sent ++ [methods.Request.PbmCheckRequirements
                  { This := c.ServiceContent.PlacementSolver,
                    HubsToSearch := datastores.map hubOf, PlacementSubjectRef := ref,
                    PlacementSubjectRequirement := ids.map
                        types.BasePbmPlacementRequirement.PbmPlacementCapabilityProfileRequirement }])
      ∧ (∀ (datastores : List vim.ManagedObjectReference)
          (ref : Option types.PbmServerObjectRef) (ids : List types.PbmProfileId),
        (c.Client.PbmCheckRequirements
            { This := c.ServiceContent.PlacementSolver, HubsToSearch := datastores.map hubOf,
              PlacementSubjectRef := none,
              PlacementSubjectRequirement := ids.map
                        types.BasePbmPlacementRequirement.PbmPlacementCapabilityProfileRequirement } w.server).1
          = Except.error e →
        (GetNonCompatibleDatastores c datastores ref ids w).1
            = ([], some (Error.transport e))
          ∧ (GetNonCompatibleDatastores c datastores ref ids w).2.sent
              = w.sent ++ [methods.Request.PbmCheckRequirements
                  { This := c.ServiceContent.PlacementSolver,
                    HubsToSearch := datastores.map hubOf, PlacementSubjectRef := none,
                    PlacementSubjectRequirement := ids.map
                        types.BasePbmPlacementRequirement.PbmPlacementCapabilityProfileRequirement }])
      ∧ (∀ spec : types.PbmCapabilityProfileCreateSpec,
        (c.Client.PbmCreate
            { This := c.ServiceContent.ProfileManager, CreateSpec := spec } w.server).1
          = Except.error e →
        (CreatePbmProfile c spec w).1 = ({ UniqueId := "" }, some (Error.transport e))
          ∧ (CreatePbmProfile c spec w).2.sent
              = w.sent ++ [methods.Request.PbmCreate
                  { This := c.ServiceContent.ProfileManager, CreateSpec := spec }])
      ∧ (∀ (id : types.PbmProfileId) (spec : types.PbmCapabilityProfileUpdateSpec),
        (c.Client.PbmUpdate
            { This := c.ServiceContent.ProfileManager, ProfileId := id, UpdateSpec := spec }
            w.server).1 = Except.error e →
        (UpdatePbmProfile c id spec w).1 = some (Error.transport e)
          ∧ (UpdatePbmProfile c id spec w).2.sent
              = w.sent ++ [methods.Request.PbmUpdate
                  { This := c.ServiceContent.ProfileManager, ProfileId := id,
                    UpdateSpec := spec }])
      ∧ (∀ ids : List types.PbmProfileId,
        (c.Client.PbmDelete
            { This := c.ServiceContent.ProfileManager, ProfileId := ids } w.server).1
          = Except.error e →
        (DeletePbmProfile c ids w).1 = ([], some (Error.transport e))
          ∧ (DeletePbmProfile c ids w).2.sent
              = w.sent ++ [methods.Request.PbmDelete
                  { This := c.ServiceContent.ProfileManager, ProfileId := ids }])
      ∧ (∀ (id : types.PbmProfileId) (entityType : String),
        (c.Client.PbmQueryAssociatedEntity
            { This := c.ServiceContent.ProfileManager, Profile := id,
              EntityType := entityType } w.server).1 = Except.error e →
        (QueryAssociatedEntity c id entityType w).1 = ([], some (Error.transport e))
          ∧ (QueryAssociatedEntity c id entityType w).2.sent
              = w.sent ++ [methods.Request.PbmQueryAssociatedEntity
                  { This := c.ServiceContent.ProfileManager, Profile := id,
                    EntityType := entityType }])
      ∧ (∀ ids : List types.PbmProfileId,
        (c.Client.PbmQueryAssociatedEntities
            { This := c.ServiceContent.ProfileManager, Profiles := ids } w.server).1
          = Except.error e →
        (QueryAssociatedEntities c ids w).1 = ([], some (Error.transport e))
          ∧ (QueryAssociatedEntities c ids w).2.sent
              = w.sent ++ [methods.Request.PbmQueryAssociatedEntities
                  { This := c.ServiceContent.ProfileManager, Profiles := ids }])
      ∧ (∀ profileName : String,
        (c.Client.PbmQueryProfile
            { This := c.ServiceContent.ProfileManager,
              ResourceType := { ResourceType := types.PbmProfileResourceTypeEnumSTORAGE },
              ProfileCategory := types.PbmProfileCategoryEnumREQUIREMENT } w.server).1 = Except.error e →
        (GetPbmProfileIDByName c profileName w).1 = ("", some (Error.transport e))
          ∧ (GetPbmProfileIDByName c profileName w).2.sent
              = w.sent ++ [methods.Request.PbmQueryProfile
            { This := c.ServiceContent.ProfileManager,
              ResourceType := { ResourceType := types.PbmProfileResourceTypeEnumSTORAGE },
              ProfileCategory := types.PbmProfileCategoryEnumREQUIREMENT }])
      ∧ (∀ (profileName : String) (ids : List types.PbmProfileId),
        (c.Client.PbmQueryProfile
            { This := c.ServiceContent.ProfileManager,
              ResourceType := { ResourceType := types.PbmProfileResourceTypeEnumSTORAGE },
              ProfileCategory := types.PbmProfileCategoryEnumREQUIREMENT } w.server).1 = Except.ok { Returnval := ids } →
        (c.Client.PbmRetrieveContent
            { This := c.ServiceContent.ProfileManager, ProfileIds := ids }
            (c.Client.PbmQueryProfile
              { This := c.ServiceContent.ProfileManager,
                ResourceType := { ResourceType := types.PbmProfileResourceTypeEnumSTORAGE },
                ProfileCategory := types.PbmProfileCategoryEnumREQUIREMENT } w.server).2).1 = Except.error e →
        (GetPbmProfileIDByName c profileName w).1 = ("", some (Error.transport e))
          ∧ (GetPbmProfileIDByName c profileName w).2.sent
              = w.sent ++ [methods.Request.PbmQueryProfile
            { This := c.ServiceContent.ProfileManager,
              ResourceType := { ResourceType := types.PbmProfileResourceTypeEnumSTORAGE },
              ProfileCategory := types.PbmProfileCategoryEnumREQUIREMENT },
                  methods.Request.PbmRetrieveContent
                    { This := c.ServiceContent.ProfileManager, ProfileIds := ids }]) := by
  refine ⟨?_, ?_, ?_, ?_, ?_, ?_, ?_, ?_, ?_, ?_, ?_, ?_⟩
  · intro rtype category h
    simp [QueryProfile, methods.PbmQueryProfile, methods.invoke, h]
  · intro ids h
    simp [RetrieveContent, methods.PbmRetrieveContent, methods.invoke, h]
  · intro hubs ref preq h
    simp [CheckRequirements, methods.PbmCheckRequirements, methods.invoke, h]
  · intro datastores ref ids h
    simp [GetCompatibleDatastores, hubsOf_eq_map, requirementsOf_eq_map, CheckRequirements,
      methods.PbmCheckRequirements, methods.invoke, h]
  · intro datastores ref ids h
    simp [GetNonCompatibleDatastores, hubsOf_eq_map, requirementsOf_eq_map, CheckRequirements,
      methods.PbmCheckRequirements, methods.invoke, h]
  · intro spec h
    simp [CreatePbmProfile, methods.PbmCreate, methods.invoke, h]
  · intro id spec h
    simp [UpdatePbmProfile, methods.PbmUpdate, methods.invoke, h]
  · intro ids h
    simp [DeletePbmProfile, methods.PbmDelete, methods.invoke, h]
  · intro id entityType h
    simp [QueryAssociatedEntity, methods.PbmQueryAssociatedEntity, methods.invoke, h]
  · intro ids h
    simp [QueryAssociatedEntities, methods.PbmQueryAssociatedEntities, methods.invoke, h]
  · intro profileName h
    simp [GetPbmProfileIDByName, QueryProfile, methods.PbmQueryProfile, methods.invoke, h]
  · intro profileName ids hq hr
    simp [GetPbmProfileIDByName, QueryProfile, RetrieveContent, methods.PbmQueryProfile,
      methods.PbmRetrieveContent, methods.invoke, hq, hr]

/-- Witness of C8: `CreatePbmProfile` on a server whose create fails, and
`GetPbmProfileIDByName` on a server whose profile query fails and on one whose content retrieval
fails. -/
theorem transport_error_returned_unchanged_witness :
    (CreatePbmProfile (double.broken [double.Op.Create]).client
        { Name := "gold", Description := "" } double.wire0).1
        = ({ UniqueId := "" }, some (Error.transport double.fault))
      ∧ (GetPbmProfileIDByName (double.broken [double.Op.QueryProfile]).client "gold"
          double.wire0).1 = ("", some (Error.transport double.fault))
      ∧ (GetPbmProfileIDByName (double.broken [double.Op.QueryProfile]).client "gold"
          double.wire0).2.sent.length = 1
      ∧ (GetPbmProfileIDByName (double.broken [double.Op.RetrieveContent]).client "gold"
          double.wire0).1 = ("", some (Error.transport double.fault))
      ∧ (GetPbmProfileIDByName (double.broken [double.Op.RetrieveContent]).client "gold"
          double.wire0).2.sent.length = 2 :=
  have hcreate := (transport_error_returned_unchanged
    (double.broken [double.Op.Create]).client double.wire0 double.fault).2.2.2.2.2.1
    { Name := "gold", Description := "" } rfl
  have hfirst := (transport_error_returned_unchanged
    (double.broken [double.Op.QueryProfile]).client double.wire0
    double.fault).2.2.2.2.2.2.2.2.2.2.1 "gold" rfl
  have hsecond := (transport_error_returned_unchanged
    (double.broken [double.Op.RetrieveContent]).client double.wire0
    double.fault).2.2.2.2.2.2.2.2.2.2.2 "gold" double.profileIds rfl rfl
  ⟨hcreate.1, hfirst.1, by rw [hfirst.2]; rfl, hsecond.1, by rw [hsecond.2]; rfl⟩

/-- Counterexample to C9 as stated: the server answers the bootstrap request with a content whose
`ProfileManager` and `PlacementSolver` references are empty, and `NewClient` returns a client
holding that content, with no error. -/
theorem NewClient_accepts_empty_content :
    double.emptyContent.ProfileManager = { Type_ := "", Value := "" }
      ∧ double.emptyContent.PlacementSolver = { Type_ := "", Value := "" }
      ∧ ((double.hollow.session.NewServiceClient "/pbm/sdk" "urn:pbm").PbmRetrieveServiceContent
            { This := { Type_ := "PbmServiceInstance", Value := "ServiceInstance" } }
            double.wire0.server).1 = Except.ok { Returnval := double.emptyContent }
      ∧ (NewClient double.hollow.session double.wire0).1.2 = none
      ∧ (NewClient double.hollow.session double.wire0).1.1.isSome = true
      ∧ (NewClient double.hollow.session double.wire0).1.1.map (fun cl => cl.ServiceContent)
          = some double.emptyContent :=
  ⟨rfl, rfl, rfl, rfl, rfl, rfl⟩

/-- C9, amended: `NewClient` sends exactly one request, the retrieval of the service content
addressed to the reference (`PbmServiceInstance`, `ServiceInstance`).  It fails exactly when
that round trip fails, and then returns no client and the error of the transport.  When the
round trip succeeds, whatever content the response carries, it returns no error and a client
that talks through the derived service client and whose `ServiceContent` is the content of the
response. -/
theorem NewClient_one_request {σ : Type} (c : vim25.Client σ) (w : Wire σ) :
    (NewClient c w).2.sent
        = w.sent ++ [methods.Request.PbmRetrieveServiceContent
            { This := { Type_ := "PbmServiceInstance", Value := "ServiceInstance" } }]
      ∧ (∀ e : soap.TransportError,
          ((c.NewServiceClient "/pbm/sdk" "urn:pbm").PbmRetrieveServiceContent
              { This := { Type_ := "PbmServiceInstance", Value := "ServiceInstance" } }
              w.server).1 = Except.error e →
          (NewClient c w).1.1.isNone = true ∧ (NewClient c w).1.2 = some (Error.transport e))
      ∧ (∀ content : types.PbmServiceInstanceContent,
          ((c.NewServiceClient "/pbm/sdk" "urn:pbm").PbmRetrieveServiceContent
              { This := { Type_ := "PbmServiceInstance", Value := "ServiceInstance" } }
              w.server).1 = Except.ok { Returnval := content } →
          (NewClient c w).1.2 = none
            ∧ (NewClient c w).1.1.map (fun cl => cl.ServiceContent) = some content
            ∧ (NewClient c w).1.1.map (fun cl => cl.Client)
                = some (c.NewServiceClient "/pbm/sdk" "urn:pbm"))
      ∧ ((NewClient c w).1.2 ≠ none ↔
          ∃ e : soap.TransportError,
            ((c.NewServiceClient "/pbm/sdk" "urn:pbm").PbmRetrieveServiceContent
                { This := { Type_ := "PbmServiceInstance", Value := "ServiceInstance" } }
                w.server).1 = Except.error e) := by
  refine ⟨?_, ?_, ?_, ?_⟩
  · unfold NewClient methods.PbmRetrieveServiceContent
    simp only []
    split <;> rename_i heq <;>
      · have := invoke_sent (c.NewServiceClient "/pbm/sdk" "urn:pbm").PbmRetrieveServiceContent
          methods.Request.PbmRetrieveServiceContent
          { This := { Type_ := "PbmServiceInstance", Value := "ServiceInstance" } } w
        rw [heq] at this
        exact this
  · intro e h
    simp [NewClient, methods.PbmRetrieveServiceContent, methods.invoke, h]
  · intro content h
    simp [NewClient, methods.PbmRetrieveServiceContent, methods.invoke, h]
  · cases h : ((c.NewServiceClient "/pbm/sdk" "urn:pbm").PbmRetrieveServiceContent
        { This := { Type_ := "PbmServiceInstance", Value := "ServiceInstance" } }
        w.server).1 with
    | error e => simp [NewClient, methods.PbmRetrieveServiceContent, methods.invoke, h]
    | ok res => simp [NewClient, methods.PbmRetrieveServiceContent, methods.invoke, h]

/-- Witness of C9 (amended): a server whose bootstrap exchange fails, and a healthy one. -/
theorem NewClient_one_request_witness :
    ((NewClient (double.broken [double.Op.RetrieveServiceContent]).session double.wire0).1.1.isNone
        = true
      ∧ (NewClient (double.broken [double.Op.RetrieveServiceContent]).session double.wire0).1.2
        = some (Error.transport double.fault))
      ∧ (NewClient (double.server double.acceptAll).session double.wire0).1.2 = none
      ∧ (NewClient (double.server double.acceptAll).session double.wire0).1.1.map
          (fun cl => cl.ServiceContent) = some double.content :=
  have hfail := (NewClient_one_request
    (double.broken [double.Op.RetrieveServiceContent]).session double.wire0).2.1
    double.fault rfl
  have hok := (NewClient_one_request
    (double.server double.acceptAll).session double.wire0).2.2.1 double.content rfl
  ⟨hfail, hok.1, hok.2.1⟩

end pbm
